import Mathlib

/-!
Verification of the StaticMixing computation engine (`src/calculations.ts`,
`src/types.ts`) against its natural-language specification.

The engine `calculateMixing` is a pure function from a `MixingInputs` snapshot
to a `CalculationResults` snapshot.  JavaScript numbers are modelled as real
numbers; every local constant of the source function becomes one Lean
definition with the same name (in source order), and `calculateMixing`
assembles the returned record from them.  The JavaScript idiom `x || y`
(replace a zero by a fallback) is modelled by `orE`.  `Math.pow` with the
source's non-integer literal exponents is modelled by `Real.rpow`;
`Math.pow(x, 2)` is modelled by squaring.  Where a claim is specifically
about IEEE non-finiteness (NaN / Infinity), two further models are used:
a small ECMAScript value model `JsVal` for the clamp on line 153, and an
`Option`-valued variant `calculateMixingChecked` of the whole pipeline in
which every operation that can produce a non-finite double from finite
arguments (division by zero, `Math.log`/`Math.log10` outside (0, ∞),
`Math.sqrt` of a negative, `Math.pow` with negative base or zero base and
non-positive exponent) fails instead of returning a junk value.
-/

namespace StaticMixing

/-- `ConduitType` from `src/types.ts`. -/
inductive ConduitType
  | PIPE
  | CHANNEL
deriving DecidableEq

/-- `ConduitShape` from `src/types.ts`. -/
inductive ConduitShape
  | CIRCULAR
  | RECTANGULAR
deriving DecidableEq

/-- `MixerModel` from `src/types.ts`. -/
inductive MixerModel
  | NONE
  | KENICS_KM
  | HEV
  | SMV
  | STM
  | BAFFLES
  | WEIR
deriving DecidableEq

/-- `InjectionType` from `src/types.ts`. -/
inductive InjectionType
  | SINGLE
  | TWIN
deriving DecidableEq

/-- `PitchRatio` from `src/types.ts` (values '1.125:1', '1.5:1', '2.25:1'). -/
inductive PitchRatio
  | PR_1_125
  | PR_1_5
  | PR_2_25
deriving DecidableEq

/-- The three-level momentum regime classification
(`'Low' | 'Intermediate' | 'High'` in `src/types.ts`). -/
inductive Regime
  | Low
  | Intermediate
  | High
deriving DecidableEq

/-- `MixingInputs` from `src/types.ts`.  The optional fields `depth` and
`slurryConcentration` are `Option ℝ`; all other numeric fields are reals. -/
structure MixingInputs where
  conduitType : ConduitType
  conduitShape : ConduitShape
  mixerModel : MixerModel
  numElements : ℝ
  flowRate : ℝ
  dimension : ℝ
  depth : Option ℝ
  availableLength : ℝ
  viscosity : ℝ
  density : ℝ
  chemicalType : String
  chemicalDose : ℝ
  chemicalFlow : ℝ
  chemicalDensity : ℝ
  chemicalViscosity : ℝ
  dilutionWaterFlow : ℝ
  targetCoV : ℝ
  targetMixingTime : ℝ
  slurryConcentration : Option ℝ
  injectionType : InjectionType
  pitchRatio : PitchRatio
  waterTemperature : ℝ

/-- `CalculationResults` from `src/types.ts`.  The two boolean compliance
flags are `Bool`; `manufacturerNotes` is a string; everything else is real. -/
structure CalculationResults where
  velocity : ℝ
  reynoldsNumber : ℝ
  momentumRatio : ℝ
  momentumRegime : Regime
  naturalMixingCoV : ℝ
  mixerCoV : ℝ
  isCompliant : Bool
  isTimeCompliant : Bool
  mixingDistanceNeeded : ℝ
  mixingTimeNeeded : ℝ
  viscosityRatio : ℝ
  injectedViscosity : ℝ
  injectedDensity : ℝ
  totalInjectionFlow : ℝ
  headloss : ℝ
  headlossMeters : ℝ
  gValue : ℝ
  limeSaturationLimit : ℝ
  dissolvedAtTarget : ℝ
  timeTo95Dissolution : ℝ
  distanceTo95Dissolution : ℝ
  suggestedOrificeDiameter : ℝ
  manufacturerNotes : String
  hydraulicDiameter : ℝ
  wettedArea : ℝ

/-- JavaScript `x || y` on numbers (for finite `x`): `y` when `x` is `0`,
otherwise `x`.  The source uses it as an epsilon guard on denominators. -/
noncomputable def orE (x y : ℝ) : ℝ := if x = 0 then y else x

/-- Whether `pat` occurs as a contiguous sublist: model of JavaScript
`String.prototype.includes` restricted to the source's literal `'Lime'`. -/
def hasSub (pat : List Char) : List Char → Bool
  | [] => pat.isPrefixOf []
  | c :: rest => pat.isPrefixOf (c :: rest) || hasSub pat rest

/-- `inputs.chemicalType.includes('Lime')` (lines 172 and 187). -/
def isLime (i : MixingInputs) : Bool := hasSub "Lime".toList i.chemicalType.toList

/-- Gravitational constant `g = 9.81` (line 13). -/
noncomputable def g : ℝ := 9.81

/-- `waterDensity = 1000` (line 14). -/
noncomputable def waterDensity : ℝ := 1000

/-- `waterViscosity = 0.001` (line 15). -/
noncomputable def waterViscosity : ℝ := 0.001

/-- Destructuring default `depth = 0.5` (line 6): the value the body of
`calculateMixing` sees for `depth`. -/
noncomputable def depthVal (i : MixingInputs) : ℝ := i.depth.getD 0.5

/-- `totalInjectionFlowLh = chemicalFlow + dilutionWaterFlow` (line 18). -/
noncomputable def totalInjectionFlowLh (i : MixingInputs) : ℝ :=
  i.chemicalFlow + i.dilutionWaterFlow

/-- `totalInjectionFlowM3s = totalInjectionFlowLh / 3600000` (line 19). -/
noncomputable def totalInjectionFlowM3s (i : MixingInputs) : ℝ :=
  totalInjectionFlowLh i / 3600000

/-- `x_chem = chemicalFlow / (totalInjectionFlowLh || 1)` (line 20). -/
noncomputable def x_chem (i : MixingInputs) : ℝ :=
  i.chemicalFlow / orE (totalInjectionFlowLh i) 1

/-- `x_water = dilutionWaterFlow / (totalInjectionFlowLh || 1)` (line 21). -/
noncomputable def x_water (i : MixingInputs) : ℝ :=
  i.dilutionWaterFlow / orE (totalInjectionFlowLh i) 1

/-- `injectedDensity = x_chem*chemicalDensity + x_water*waterDensity` (line 23). -/
noncomputable def injectedDensity (i : MixingInputs) : ℝ :=
  x_chem i * i.chemicalDensity + x_water i * waterDensity

/-- `injectedViscosity = exp(x_chem*log(chemicalViscosity || 1e-6) +
x_water*log(waterViscosity || 1e-6))` (lines 24-27). -/
noncomputable def injectedViscosity (i : MixingInputs) : ℝ :=
  Real.exp (x_chem i * Real.log (orE i.chemicalViscosity 0.000001) +
    x_water i * Real.log (orE waterViscosity 0.000001))

/-- Cross-sectional `area` (lines 30-51). -/
noncomputable def area (i : MixingInputs) : ℝ :=
  match i.conduitType, i.conduitShape with
  | .PIPE, .CIRCULAR => Real.pi * (i.dimension / 2) ^ 2
  | .PIPE, .RECTANGULAR => i.dimension * orE (depthVal i) i.dimension
  | .CHANNEL, _ => i.dimension * depthVal i

/-- Wetted `perimeter` (lines 30-51). -/
noncomputable def perimeter (i : MixingInputs) : ℝ :=
  match i.conduitType, i.conduitShape with
  | .PIPE, .CIRCULAR => Real.pi * i.dimension
  | .PIPE, .RECTANGULAR => 2 * (i.dimension + orE (depthVal i) i.dimension)
  | .CHANNEL, _ => i.dimension + 2 * depthVal i

/-- `hydraulicDiameter` (lines 30-51): the diameter for a circular pipe,
`4*area/perimeter` for a rectangular duct, `4*area/(b + 2h)` for a channel. -/
noncomputable def hydraulicDiameter (i : MixingInputs) : ℝ :=
  match i.conduitType, i.conduitShape with
  | .PIPE, .CIRCULAR => i.dimension
  | .PIPE, .RECTANGULAR => 4 * area i / perimeter i
  | .CHANNEL, _ => 4 * area i / (i.dimension + 2 * depthVal i)

/-- `Q_m3s = flowRate / 3600` (line 53). -/
noncomputable def Q_m3s (i : MixingInputs) : ℝ := i.flowRate / 3600

/-- `velocity = Q_m3s / (area || 1e-6)` (line 54). -/
noncomputable def velocity (i : MixingInputs) : ℝ := Q_m3s i / orE (area i) 0.000001

/-- `Re = density*velocity*hydraulicDiameter / (viscosity || 1e-6)` (line 55). -/
noncomputable def Re (i : MixingInputs) : ℝ :=
  i.density * velocity i * hydraulicDiameter i / orE i.viscosity 0.000001

/-- `targetMR = 0.22` (line 58). -/
noncomputable def targetMR : ℝ := 0.22

/-- `numPoints = injectionType === TWIN ? 2 : 1` (line 59). -/
noncomputable def numPoints (i : MixingInputs) : ℝ :=
  if i.injectionType = .TWIN then 2 else 1

/-- `flowPerPointM3s = totalInjectionFlowM3s / numPoints` (line 60). -/
noncomputable def flowPerPointM3s (i : MixingInputs) : ℝ :=
  totalInjectionFlowM3s i / numPoints i

/-- `suggestedOrificeDiameter` in meters (lines 62-63). -/
noncomputable def suggestedOrificeDiameterM (i : MixingInputs) : ℝ :=
  4 * flowPerPointM3s i * Real.sqrt (injectedDensity i / orE i.density 1) /
    orE (Real.pi * targetMR * velocity i * hydraulicDiameter i) 0.000001

/-- `d_inj_default = 0.025` (line 65). -/
noncomputable def d_inj_default : ℝ := 0.025

/-- `u_inj_actual = flowPerPointM3s / (PI*(d_inj_default/2)^2 || 1e-9)` (line 66). -/
noncomputable def u_inj_actual (i : MixingInputs) : ℝ :=
  flowPerPointM3s i / orE (Real.pi * (d_inj_default / 2) ^ 2) 0.000000001

/-- `momentumRatio = sqrt(injectedDensity/(density || 1)) *
(u_inj_actual*d_inj_default / (velocity*hydraulicDiameter || 1e-6))` (line 67). -/
noncomputable def momentumRatio (i : MixingInputs) : ℝ :=
  Real.sqrt (injectedDensity i / orE i.density 1) *
    (u_inj_actual i * d_inj_default / orE (velocity i * hydraulicDiameter i) 0.000001)

/-- The regime classification applied to a momentum-ratio value
(lines 69-71): below 0.16 is Low, above 0.24 is High, else Intermediate. -/
noncomputable def classifyMomentum (r : ℝ) : Regime :=
  if r < 0.16 then .Low else if r > 0.24 then .High else .Intermediate

/-- `momentumRegime` (lines 69-71). -/
noncomputable def momentumRegime (i : MixingInputs) : Regime :=
  classifyMomentum (momentumRatio i)

/-- `alpha = (Q_m3s * 3600000) / (totalInjectionFlowLh || 1)` (line 73). -/
noncomputable def alpha (i : MixingInputs) : ℝ :=
  Q_m3s i * 3600000 / orE (totalInjectionFlowLh i) 1

/-- `LD = availableLength / hydraulicDiameter` (line 81). -/
noncomputable def LD (i : MixingInputs) : ℝ := i.availableLength / hydraulicDiameter i

/-- The friction-factor constant `FD` set by the `switch (mixerModel)`
(lines 76-151); the `NONE`/`default` arm (shared by NONE, BAFFLES, WEIR)
uses the explicit Colebrook-type approximation of line 141. -/
noncomputable def FDval (i : MixingInputs) : ℝ :=
  match i.mixerModel with
  | .KENICS_KM => 1.9
  | .HEV => if i.conduitType = .CHANNEL then 0.45 else 0.6
  | .SMV => 10.1
  | .STM =>
      if i.conduitType = .CHANNEL then
        if i.pitchRatio = .PR_1_125 then 3.0
        else if i.pitchRatio = .PR_1_5 then 7.6
        else 1.9
      else if i.pitchRatio = .PR_1_5 then 4.15 else 2.3
  | _ => 0.25 / Real.logb 10 (0.0001 / (3.7 * hydraulicDiameter i) +
      5.74 / Re i ^ (0.9 : ℝ)) ^ 2

/-- The mixed length `Lm` set by the `switch (mixerModel)` (lines 76-151). -/
noncomputable def LmVal (i : MixingInputs) : ℝ :=
  match i.mixerModel with
  | .KENICS_KM => i.numElements * 1.5 * hydraulicDiameter i
  | .HEV => i.numElements * hydraulicDiameter i
  | .SMV => i.numElements * hydraulicDiameter i
  | .STM =>
      if i.conduitType = .CHANNEL then i.numElements * 0.5 * hydraulicDiameter i
      else i.numElements * 0.8 * hydraulicDiameter i
  | _ => i.availableLength

/-- The raw (pre-clamp) CoV correlation chosen by the `switch (mixerModel)`
(lines 76-151).  `Math.pow` is `Real.rpow`. -/
noncomputable def covRaw (i : MixingInputs) : ℝ :=
  match i.mixerModel with
  | .KENICS_KM =>
      if i.injectionType = .SINGLE then
        0.96 * Re i ^ (-0.1 : ℝ) * alpha i ^ (0.03 : ℝ) * i.numElements ^ (-1.9 : ℝ)
      else
        0.38 * Re i ^ (0.008 : ℝ) * alpha i ^ (0.08 : ℝ) * i.numElements ^ (-2.1 : ℝ)
  | .HEV =>
      if i.conduitType = .CHANNEL then
        60 * LD i ^ (-0.6 : ℝ) * i.numElements ^ (-0.9 : ℝ) * Re i ^ (-0.4 : ℝ)
      else if LD i ≤ 3 then
        31.5 * Re i ^ (-0.2 : ℝ) * alpha i ^ (-0.15 : ℝ) * i.numElements ^ (-1.7 : ℝ)
      else
        1.1 * Re i ^ (-0.04 : ℝ) * alpha i ^ (0.02 : ℝ) * i.numElements ^ (-1.9 : ℝ)
  | .SMV =>
      0.3 * Re i ^ (-0.02 : ℝ) * alpha i ^ (-0.01 : ℝ) * i.numElements ^ (-1.6 : ℝ)
  | .STM =>
      if i.conduitType = .CHANNEL then
        if i.pitchRatio = .PR_1_125 then
          0.00021 * LD i ^ (-0.2 : ℝ) * i.numElements ^ (-0.3 : ℝ) *
            alpha i ^ (-0.02 : ℝ) * Re i ^ (0.7 : ℝ)
        else if i.pitchRatio = .PR_1_5 then
          0.29 * LD i ^ (-0.07 : ℝ) * i.numElements ^ (-0.25 : ℝ) *
            alpha i ^ (0.1 : ℝ) * Re i ^ (-0.2 : ℝ)
        else
          48 * LD i ^ (-0.2 : ℝ) * i.numElements ^ (-0.2 : ℝ) *
            alpha i ^ (0.7 : ℝ) * Re i ^ (-1.1 : ℝ)
      else if i.pitchRatio = .PR_1_5 then
        0.29 * Re i ^ (-0.2 : ℝ) * alpha i ^ (0.09 : ℝ) * i.numElements ^ (-0.6 : ℝ)
      else
        0.28 * Re i ^ (-0.04 : ℝ) * alpha i ^ (0.10 : ℝ) * i.numElements ^ (-2.1 : ℝ)
  | _ =>
      if i.conduitType = .CHANNEL then
        0.0183 * LD i ^ (-1 / 1.3 : ℝ) * max 0.01 (momentumRatio i) ^ (-2.21 / 1.3 : ℝ)
      else
        2 * Real.sqrt (alpha i) * Real.exp (-0.75 * Real.sqrt (FDval i) * LD i)

/-- `manufacturerNotes` set by the `switch (mixerModel)` (lines 79-151);
the STM and default arms keep the initial string of line 79. -/
def notesVal (i : MixingInputs) : String :=
  match i.mixerModel with
  | .KENICS_KM =>
      "Chemineer recommends the quill terminate at 0.5Dh upstream. DH calculated for current geometry."
  | .HEV => "HEV tabs work best when injection is centered relative to the DH axis."
  | .SMV => "Sulzer SMV is high-performance; initial distribution is critical for short conduits."
  | _ => "Standard BHR quill recommendations apply."

/-- The clamp of line 153 over the reals:
`mixerCoV = min(1.0, max(0.0001, covRaw))`.  The `isNaN` test of line 153
is vacuous over ℝ; its IEEE content is modelled by `clampLine153` below. -/
noncomputable def mixerCoV (i : MixingInputs) : ℝ := min 1 (max 0.0001 (covRaw i))

/-- `headlossMeters` (line 156): a fixed `0.15` for WEIR, otherwise
`FD*Lm*velocity^2 / (2*g*hydraulicDiameter)`. -/
noncomputable def headlossMeters (i : MixingInputs) : ℝ :=
  if i.mixerModel = .WEIR then 0.15
  else FDval i * LmVal i * velocity i ^ 2 / (2 * g * hydraulicDiameter i)

/-- `headlossKpa = headlossMeters * density * g / 1000` (line 157). -/
noncomputable def headlossKpa (i : MixingInputs) : ℝ :=
  headlossMeters i * i.density * g / 1000

/-- `powerDissipated = headlossKpa * 1000 * Q_m3s` (line 158). -/
noncomputable def powerDissipated (i : MixingInputs) : ℝ :=
  headlossKpa i * 1000 * Q_m3s i

/-- `volForG = area * max(Lm, hydraulicDiameter)` (line 159). -/
noncomputable def volForG (i : MixingInputs) : ℝ :=
  area i * max (LmVal i) (hydraulicDiameter i)

/-- `gValue = sqrt(powerDissipated / (viscosity*volForG || 1e-9))` (line 160). -/
noncomputable def gValue (i : MixingInputs) : ℝ :=
  Real.sqrt (powerDissipated i / orE (i.viscosity * volForG i) 0.000000001)

/-- `limeSaturationLimit` (line 163): the empirical solubility quadratic. -/
noncomputable def limeSaturationLimit (i : MixingInputs) : ℝ :=
  (-0.00004 * i.waterTemperature ^ 2 - 0.0125 * i.waterTemperature + 1.83) * 1000

/-- `rateK = 0.3*sqrt(max(1,gValue)/100) *
max(0.1, (limeSaturationLimit - chemicalDose)/limeSaturationLimit)` (line 164). -/
noncomputable def rateK (i : MixingInputs) : ℝ :=
  0.3 * Real.sqrt (max 1 (gValue i) / 100) *
    max 0.1 ((limeSaturationLimit i - i.chemicalDose) / limeSaturationLimit i)

/-- `timeTo95 = log(1/0.05) / (rateK || 1e-3)` (line 165). -/
noncomputable def timeTo95 (i : MixingInputs) : ℝ :=
  Real.log (1 / 0.05) / orE (rateK i) 0.001

/-- `distanceTo95 = timeTo95 * velocity` (line 166). -/
noncomputable def distanceTo95 (i : MixingInputs) : ℝ := timeTo95 i * velocity i

/-- `decayRate` (line 169): `0.75*sqrt(0.02)` for pipes, `0.6` for channels. -/
noncomputable def decayRate (i : MixingInputs) : ℝ :=
  if i.conduitType = .PIPE then 0.75 * Real.sqrt 0.02 else 0.6

/-- `mixingDistanceNeeded` (line 170). -/
noncomputable def mixingDistanceNeeded (i : MixingInputs) : ℝ :=
  if mixerCoV i ≤ i.targetCoV then LmVal i
  else LmVal i + Real.log (mixerCoV i / i.targetCoV) / orE (decayRate i) 0.1 *
    hydraulicDiameter i

/-- `finalDistanceNeeded` (line 172): for lime, the max of the blending and
95%-dissolution distances. -/
noncomputable def finalDistanceNeeded (i : MixingInputs) : ℝ :=
  if isLime i then max (mixingDistanceNeeded i) (distanceTo95 i)
  else mixingDistanceNeeded i

/-- `mixingTimeNeeded = finalDistanceNeeded / (velocity || 1e-6)` (line 173). -/
noncomputable def mixingTimeNeeded (i : MixingInputs) : ℝ :=
  finalDistanceNeeded i / orE (velocity i) 0.000001

/-- The local `dissolvedAtTarget = (1 - exp(-rateK*mixingTimeNeeded))*100`
(line 174), before the `min(100, ...)` applied on return (line 195). -/
noncomputable def dissolvedRaw (i : MixingInputs) : ℝ :=
  (1 - Real.exp (-(rateK i) * mixingTimeNeeded i)) * 100

/-- The engine `calculateMixing` (lines 4-203), assembling the returned
record (lines 176-202) from the stage definitions above.  Note that
`isCompliant` compares the pre-`min` local `dissolvedAtTarget` (line 187)
while the returned `dissolvedAtTarget` field is clamped to 100 (line 195). -/
noncomputable def calculateMixing (i : MixingInputs) : CalculationResults where
  velocity := velocity i
  reynoldsNumber := Re i
  momentumRatio := momentumRatio i
  momentumRegime := momentumRegime i
  naturalMixingCoV := 1.0
  mixerCoV := mixerCoV i
  isCompliant :=
    decide (mixerCoV i ≤ i.targetCoV) && (!isLime i || decide (dissolvedRaw i > 90))
  isTimeCompliant := decide (mixingTimeNeeded i ≤ i.targetMixingTime)
  mixingDistanceNeeded := finalDistanceNeeded i
  mixingTimeNeeded := mixingTimeNeeded i
  viscosityRatio := injectedViscosity i / orE i.viscosity 0.000001
  injectedViscosity := injectedViscosity i
  injectedDensity := injectedDensity i
  totalInjectionFlow := totalInjectionFlowLh i
  headloss := headlossKpa i
  headlossMeters := headlossMeters i
  gValue := gValue i
  limeSaturationLimit := limeSaturationLimit i
  dissolvedAtTarget := min 100 (dissolvedRaw i)
  timeTo95Dissolution := timeTo95 i
  distanceTo95Dissolution := distanceTo95 i
  suggestedOrificeDiameter := suggestedOrificeDiameterM i * 1000
  manufacturerNotes := notesVal i
  hydraulicDiameter := hydraulicDiameter i
  wettedArea := area i

/-! ### Checked (Option-valued) model of the pipeline

`calculateMixingChecked` recomputes `calculateMixing` with every operation
that can turn finite arguments into a non-finite double replaced by a
checked version: division fails on a zero denominator, `Math.log` and
`Math.log10` fail outside (0, ∞), `Math.sqrt` fails on a negative, and
`Math.pow` (used only with the source's non-integer constant exponents)
fails unless its base is positive, or zero with a positive exponent.
`none` marks that the IEEE computation would produce NaN or an infinity;
on success the value agrees with the plain real model.  Squares
(`Math.pow(_, 2)`) and divisions by nonzero numeric literals are left
pure, and overflow/rounding of finite doubles is not modelled. -/

/-- Checked division: JavaScript `x / y` is non-finite exactly when the
(finite) denominator is zero. -/
noncomputable def jsDiv (x y : ℝ) : Option ℝ := if y = 0 then none else some (x / y)

/-- Checked `Math.log`: non-finite (or NaN) outside (0, ∞). -/
noncomputable def jsLog (x : ℝ) : Option ℝ :=
  if 0 < x then some (Real.log x) else none

/-- Checked `Math.log10`: non-finite (or NaN) outside (0, ∞). -/
noncomputable def jsLog10 (x : ℝ) : Option ℝ :=
  if 0 < x then some (Real.logb 10 x) else none

/-- Checked `Math.sqrt`: NaN on a negative argument. -/
noncomputable def jsSqrt (x : ℝ) : Option ℝ :=
  if 0 ≤ x then some (Real.sqrt x) else none

/-- Checked `Math.pow` for a non-integer exponent: NaN for a negative
base, `Infinity` for a zero base and non-positive exponent. -/
noncomputable def jsPow (x y : ℝ) : Option ℝ :=
  if 0 < x ∨ (x = 0 ∧ 0 < y) then some (x ^ y) else none

/-- Checked geometry resolver (lines 30-51): only the hydraulic-diameter
divisions can fail. -/
noncomputable def hdChecked (i : MixingInputs) : Option ℝ :=
  match i.conduitType, i.conduitShape with
  | .PIPE, .CIRCULAR => pure i.dimension
  | .PIPE, .RECTANGULAR => jsDiv (4 * area i) (perimeter i)
  | .CHANNEL, _ => jsDiv (4 * area i) (i.dimension + 2 * depthVal i)

/-- Checked `switch (mixerModel)` (lines 76-151), returning
`(mixerCoV before clamp, FD, Lm)`; `re`, `al`, `ld`, `mr`, `hd` are the
previously computed Reynolds number, dilution ratio, length ratio,
momentum ratio and hydraulic diameter. -/
noncomputable def covFdLmChecked (i : MixingInputs) (re al ld mr hd : ℝ) :
    Option (ℝ × ℝ × ℝ) :=
  match i.mixerModel with
  | .KENICS_KM => do
      let cov ←
        if i.injectionType = .SINGLE then do
          let a ← jsPow re (-0.1 : ℝ)
          let b ← jsPow al (0.03 : ℝ)
          let c ← jsPow i.numElements (-1.9 : ℝ)
          pure (0.96 * a * b * c)
        else do
          let a ← jsPow re (0.008 : ℝ)
          let b ← jsPow al (0.08 : ℝ)
          let c ← jsPow i.numElements (-2.1 : ℝ)
          pure (0.38 * a * b * c)
      pure (cov, 1.9, i.numElements * 1.5 * hd)
  | .HEV =>
      if i.conduitType = .CHANNEL then do
        let a ← jsPow ld (-0.6 : ℝ)
        let b ← jsPow i.numElements (-0.9 : ℝ)
        let c ← jsPow re (-0.4 : ℝ)
        pure (60 * a * b * c, 0.45, i.numElements * hd)
      else do
        let cov ←
          if ld ≤ 3 then do
            let a ← jsPow re (-0.2 : ℝ)
            let b ← jsPow al (-0.15 : ℝ)
            let c ← jsPow i.numElements (-1.7 : ℝ)
            pure (31.5 * a * b * c)
          else do
            let a ← jsPow re (-0.04 : ℝ)
            let b ← jsPow al (0.02 : ℝ)
            let c ← jsPow i.numElements (-1.9 : ℝ)
            pure (1.1 * a * b * c)
        pure (cov, 0.6, i.numElements * hd)
  | .SMV => do
      let a ← jsPow re (-0.02 : ℝ)
      let b ← jsPow al (-0.01 : ℝ)
      let c ← jsPow i.numElements (-1.6 : ℝ)
      pure (0.3 * a * b * c, 10.1, i.numElements * hd)
  | .STM =>
      if i.conduitType = .CHANNEL then
        if i.pitchRatio = .PR_1_125 then do
          let a ← jsPow ld (-0.2 : ℝ)
          let b ← jsPow i.numElements (-0.3 : ℝ)
          let c ← jsPow al (-0.02 : ℝ)
          let d ← jsPow re (0.7 : ℝ)
          pure (0.00021 * a * b * c * d, 3.0, i.numElements * 0.5 * hd)
        else if i.pitchRatio = .PR_1_5 then do
          let a ← jsPow ld (-0.07 : ℝ)
          let b ← jsPow i.numElements (-0.25 : ℝ)
          let c ← jsPow al (0.1 : ℝ)
          let d ← jsPow re (-0.2 : ℝ)
          pure (0.29 * a * b * c * d, 7.6, i.numElements * 0.5 * hd)
        else do
          let a ← jsPow ld (-0.2 : ℝ)
          let b ← jsPow i.numElements (-0.2 : ℝ)
          let c ← jsPow al (0.7 : ℝ)
          let d ← jsPow re (-1.1 : ℝ)
          pure (48 * a * b * c * d, 1.9, i.numElements * 0.5 * hd)
      else
        if i.pitchRatio = .PR_1_5 then do
          let a ← jsPow re (-0.2 : ℝ)
          let b ← jsPow al (0.09 : ℝ)
          let c ← jsPow i.numElements (-0.6 : ℝ)
          pure (0.29 * a * b * c, 4.15, i.numElements * 0.8 * hd)
        else do
          let a ← jsPow re (-0.04 : ℝ)
          let b ← jsPow al (0.10 : ℝ)
          let c ← jsPow i.numElements (-2.1 : ℝ)
          pure (0.28 * a * b * c, 2.3, i.numElements * 0.8 * hd)
  | _ => do
      let q1 ← jsDiv 0.0001 (3.7 * hd)
      let p1 ← jsPow re (0.9 : ℝ)
      let q2 ← jsDiv 5.74 p1
      let lg ← jsLog10 (q1 + q2)
      let fd ← jsDiv 0.25 (lg ^ 2)
      let cov ←
        if i.conduitType = .CHANNEL then do
          let a ← jsPow ld (-1 / 1.3 : ℝ)
          let b ← jsPow (max 0.01 mr) (-2.21 / 1.3 : ℝ)
          pure (0.0183 * a * b)
        else do
          let cvi ← jsSqrt al
          let sf ← jsSqrt fd
          pure (2 * cvi * Real.exp (-0.75 * sf * ld))
      pure (cov, fd, i.availableLength)

/-- Checked headloss (line 156). -/
noncomputable def hlChecked (i : MixingInputs) (fd lm v hd : ℝ) : Option ℝ :=
  if i.mixerModel = .WEIR then pure 0.15
  else jsDiv (fd * lm * v ^ 2) (2 * g * hd)

/-- Checked required mixing distance (line 170). -/
noncomputable def mdnChecked (i : MixingInputs) (cov lm hd : ℝ) : Option ℝ :=
  if cov ≤ i.targetCoV then pure lm
  else do
    let q ← jsDiv cov i.targetCoV
    let lq ← jsLog q
    let dr ← jsDiv lq (orE (decayRate i) 0.1)
    pure (lm + dr * hd)

/-- The intermediate values of stages 1-3 (lines 18-73): injected density
and viscosity, hydraulic diameter, velocity, Reynolds number, momentum
ratio, suggested orifice diameter (m), dilution ratio, and length ratio. -/
structure HydroVals where
  injD : ℝ
  injV : ℝ
  hd : ℝ
  v : ℝ
  re : ℝ
  mr : ℝ
  sod : ℝ
  al : ℝ
  ld : ℝ

/-- Checked stages 1-3 of the pipeline (lines 18-81), in source order.
`Math.sqrt(injectedDensity/(density || 1))`, evaluated identically on
lines 62 and 67, is bound once and used twice. -/
noncomputable def checkedHydraulics (i : MixingInputs) : Option HydroVals := do
  let xc ← jsDiv i.chemicalFlow (orE (totalInjectionFlowLh i) 1)
  let xw ← jsDiv i.dilutionWaterFlow (orE (totalInjectionFlowLh i) 1)
  let injD := xc * i.chemicalDensity + xw * waterDensity
  let lcv ← jsLog (orE i.chemicalViscosity 0.000001)
  let lwv ← jsLog (orE waterViscosity 0.000001)
  let injV := Real.exp (xc * lcv + xw * lwv)
  let hd ← hdChecked i
  let v ← jsDiv (Q_m3s i) (orE (area i) 0.000001)
  let re ← jsDiv (i.density * v * hd) (orE i.viscosity 0.000001)
  let drq ← jsDiv injD (orE i.density 1)
  let sdr ← jsSqrt drq
  let sod ← jsDiv (4 * flowPerPointM3s i * sdr)
    (orE (Real.pi * targetMR * v * hd) 0.000001)
  let uinj ← jsDiv (flowPerPointM3s i)
    (orE (Real.pi * (d_inj_default / 2) ^ 2) 0.000000001)
  let mrq ← jsDiv (uinj * d_inj_default) (orE (v * hd) 0.000001)
  let al ← jsDiv (Q_m3s i * 3600000) (orE (totalInjectionFlowLh i) 1)
  let ld ← jsDiv i.availableLength hd
  pure ⟨injD, injV, hd, v, re, sdr * mrq, sod, al, ld⟩

/-- Checked stages 4-7 of the pipeline (lines 76-203), continuing from the
stage 1-3 values. -/
noncomputable def checkedRest (i : MixingInputs) (h : HydroVals) :
    Option CalculationResults := do
  let cfl ← covFdLmChecked i h.re h.al h.ld h.mr h.hd
  let cov := min 1 (max 0.0001 cfl.1)
  let hl ← hlChecked i cfl.2.1 cfl.2.2 h.v h.hd
  let kpa := hl * i.density * g / 1000
  let pw := kpa * 1000 * Q_m3s i
  let gq ← jsDiv pw
    (orE (i.viscosity * (area i * max cfl.2.2 h.hd)) 0.000000001)
  let gv ← jsSqrt gq
  let hr ← jsDiv (limeSaturationLimit i - i.chemicalDose) (limeSaturationLimit i)
  let tfq ← jsSqrt (max 1 gv / 100)
  let rk := 0.3 * tfq * max 0.1 hr
  let t95 ← jsDiv (Real.log (1 / 0.05)) (orE rk 0.001)
  let d95 := t95 * h.v
  let mdn ← mdnChecked i cov cfl.2.2 h.hd
  let fdn := if isLime i then max mdn d95 else mdn
  let mtn ← jsDiv fdn (orE h.v 0.000001)
  let dat := (1 - Real.exp (-rk * mtn)) * 100
  let vr ← jsDiv h.injV (orE i.viscosity 0.000001)
  pure
    { velocity := h.v
      reynoldsNumber := h.re
      momentumRatio := h.mr
      momentumRegime := classifyMomentum h.mr
      naturalMixingCoV := 1.0
      mixerCoV := cov
      isCompliant := decide (cov ≤ i.targetCoV) && (!isLime i || decide (dat > 90))
      isTimeCompliant := decide (mtn ≤ i.targetMixingTime)
      mixingDistanceNeeded := fdn
      mixingTimeNeeded := mtn
      viscosityRatio := vr
      injectedViscosity := h.injV
      injectedDensity := h.injD
      totalInjectionFlow := totalInjectionFlowLh i
      headloss := kpa
      headlossMeters := hl
      gValue := gv
      limeSaturationLimit := limeSaturationLimit i
      dissolvedAtTarget := min 100 dat
      timeTo95Dissolution := t95
      distanceTo95Dissolution := d95
      suggestedOrificeDiameter := h.sod * 1000
      manufacturerNotes := notesVal i
      hydraulicDiameter := h.hd
      wettedArea := area i }

/-- The checked pipeline: `calculateMixing` with every risky operation
checked, in source order. -/
noncomputable def calculateMixingChecked (i : MixingInputs) :
    Option CalculationResults := do
  let h ← checkedHydraulics i
  checkedRest i h

/-! ### ECMAScript value model for the clamp of line 153

`mixerCoV = isNaN(mixerCoV) ? 1.0 : Math.min(1.0, Math.max(0.0001, mixerCoV))`
is the one place the source inspects a number for being invalid.  `JsVal`
models an IEEE double as finite, `+Infinity`, `-Infinity` or `NaN`, with
`Math.min`/`Math.max` as ECMAScript defines them (NaN-propagating). -/

/-- An IEEE double: a finite real, an infinity, or NaN. -/
inductive JsVal
  | finite (x : ℝ)
  | posInf
  | negInf
  | nan

/-- JavaScript `isNaN` on a `JsVal`. -/
def jsIsNaN : JsVal → Bool
  | .nan => true
  | _ => false

/-- ECMAScript `Math.max` of two values: NaN propagates, `+Infinity`
dominates, `-Infinity` is neutral. -/
noncomputable def jsMax : JsVal → JsVal → JsVal
  | .nan, _ => .nan
  | _, .nan => .nan
  | .posInf, _ => .posInf
  | _, .posInf => .posInf
  | .negInf, b => b
  | a, .negInf => a
  | .finite a, .finite b => .finite (max a b)

/-- ECMAScript `Math.min` of two values: NaN propagates, `-Infinity`
dominates, `+Infinity` is neutral. -/
noncomputable def jsMin : JsVal → JsVal → JsVal
  | .nan, _ => .nan
  | _, .nan => .nan
  | .negInf, _ => .negInf
  | _, .negInf => .negInf
  | .posInf, b => b
  | a, .posInf => a
  | .finite a, .finite b => .finite (min a b)

/-- Line 153 on the ECMAScript value model:
`isNaN(v) ? 1.0 : Math.min(1.0, Math.max(0.0001, v))`. -/
noncomputable def clampLine153 (v : JsVal) : JsVal :=
  if jsIsNaN v then .finite 1 else jsMin (.finite 1) (jsMax (.finite 0.0001) v)

/-! ### Example inputs -/

/-- A benign concrete input: a 1 m by 1 m closed rectangular duct at
3600 m³/h (so `area = 1`, `hydraulicDiameter = 1`, `velocity = 1`),
no mixing device, a non-lime chemical. -/
noncomputable def exBase : MixingInputs where
  conduitType := .PIPE
  conduitShape := .RECTANGULAR
  mixerModel := .NONE
  numElements := 6
  flowRate := 3600
  dimension := 1
  depth := some 1
  availableLength := 10
  viscosity := 1
  density := 3600
  chemicalType := "NaOH"
  chemicalDose := 5
  chemicalFlow := 1000
  chemicalDensity := 1200
  chemicalViscosity := 0.001
  dilutionWaterFlow := 0
  targetCoV := 2
  targetMixingTime := 30
  slurryConcentration := none
  injectionType := .SINGLE
  pitchRatio := .PR_2_25
  waterTemperature := 20

/-- KENICS single-injection input family with `Re = 1` and `alpha = 1`
(1 m³/h of bulk flow through a 1 m square duct of water-like bulk fluid
scaled so the Reynolds number is exactly 1), parametrised by the element
count. -/
noncomputable def cex4n (n : ℝ) : MixingInputs :=
  { exBase with mixerModel := .KENICS_KM, flowRate := 1, numElements := n }

/-- The base duct with zero chemical and dilution flows and a bulk density
chosen so that the Reynolds number is exactly `(212380/36999)^(10/9)`:
then `Re^0.9 = 212380/36999` and the argument of the Colebrook `log10` on
line 141 is exactly `0.0001/3.7 + 5.74·36999/212380 = 1`, so the friction
factor divides by zero. -/
noncomputable def cex7 : MixingInputs :=
  { exBase with
    chemicalFlow := 0
    density := (212380 / 36999 : ℝ) ^ ((10 : ℝ) / 9) }

/-- A well-formed zero-injection input on the KENICS_KM model. -/
noncomputable def exZeroFlow : MixingInputs :=
  { exBase with mixerModel := .KENICS_KM, chemicalFlow := 0 }

/-- The base duct on the WEIR model with a negative available length.
WEIR takes the fixed, strictly positive 0.15 m headloss of line 156, so
every square root and logarithm along the evaluation sees a positive
argument even though `Lm = availableLength = -100`. -/
noncomputable def cex3w : MixingInputs :=
  { exBase with mixerModel := .WEIR, availableLength := -100 }

/-! ### Claims -/

/-- C1: for every input, the `mixerCoV` field of the result of
`calculateMixing` lies in [0.0001, 1]; on the ECMAScript model of the
clamp on line 153, a finite raw correlation value is clamped by
`min`/`max` into that interval, and a NaN or `+Infinity` raw correlation
comes back as the worst case 1.0. -/
theorem C1_mixerCoV_clamp :
    (∀ i : MixingInputs, 0.0001 ≤ (calculateMixing i).mixerCoV ∧
      (calculateMixing i).mixerCoV ≤ 1) ∧
    (∀ x : ℝ, clampLine153 (.finite x) = .finite (min 1 (max 0.0001 x))) ∧
    clampLine153 .nan = .finite 1 ∧ clampLine153 .posInf = .finite 1 := by
  refine ⟨fun i => ⟨?_, ?_⟩, fun x => ?_, rfl, rfl⟩
  · show 0.0001 ≤ min 1 (max 0.0001 (covRaw i))
    exact le_min (by norm_num) (le_max_left _ _)
  · exact min_le_left _ _
  · rfl

/-- C5: `headlossMeters` is exactly 0.15 for the WEIR model and
`FD*Lm*velocity^2/(2*9.81*hydraulicDiameter)` for every other model, and
`headloss` (kPa) is always `headlossMeters*density*9.81/1000`. -/
theorem C5_headloss_formula :
    ∀ i : MixingInputs,
      (i.mixerModel = .WEIR → (calculateMixing i).headlossMeters = 0.15) ∧
      (i.mixerModel ≠ .WEIR →
        (calculateMixing i).headlossMeters =
          FDval i * LmVal i * velocity i ^ 2 / (2 * 9.81 * hydraulicDiameter i)) ∧
      (calculateMixing i).headloss =
        (calculateMixing i).headlossMeters * i.density * 9.81 / 1000 := by
  intro i
  refine ⟨fun h => ?_, fun h => ?_, ?_⟩
  · show headlossMeters i = 0.15
    rw [headlossMeters, if_pos h]
  · show headlossMeters i = _
    rw [headlossMeters, if_neg h, g]
  · show headlossKpa i = headlossMeters i * i.density * 9.81 / 1000
    rw [headlossKpa, g]

/-- C5 witness: both branches at concrete inputs. -/
theorem C5_headloss_formula_witness :
    (calculateMixing { exBase with mixerModel := .WEIR }).headlossMeters = 0.15 ∧
    (calculateMixing { exBase with mixerModel := .KENICS_KM }).headlossMeters =
      FDval { exBase with mixerModel := .KENICS_KM } *
        LmVal { exBase with mixerModel := .KENICS_KM } *
        velocity { exBase with mixerModel := .KENICS_KM } ^ 2 /
        (2 * 9.81 * hydraulicDiameter { exBase with mixerModel := .KENICS_KM }) :=
  ⟨(C5_headloss_formula _).1 rfl, (C5_headloss_formula _).2.1 (by decide)⟩

/-- C6: BAFFLES has no arm in the `switch (mixerModel)` and the headloss
line only distinguishes WEIR, so an input with BAFFLES produces a result
identical in every field to the same input with NONE, with the same
friction factor FD and mixed length Lm along the way. -/
theorem C6_baffles_eq_none :
    ∀ i : MixingInputs,
      calculateMixing { i with mixerModel := .BAFFLES } =
        calculateMixing { i with mixerModel := .NONE } ∧
      FDval { i with mixerModel := .BAFFLES } =
        FDval { i with mixerModel := .NONE } ∧
      LmVal { i with mixerModel := .BAFFLES } =
        LmVal { i with mixerModel := .NONE } :=
  fun _ => ⟨rfl, rfl, rfl⟩

/-- C8: whenever the total injection flow is positive, the chemical and
water fractions computed on lines 20-21 sum to exactly 1. -/
theorem C8_fraction_sum :
    ∀ i : MixingInputs, 0 < i.chemicalFlow + i.dilutionWaterFlow →
      x_chem i + x_water i = 1 := by
  intro i h
  have ht : totalInjectionFlowLh i ≠ 0 := by
    rw [totalInjectionFlowLh]; exact ne_of_gt h
  rw [x_chem, x_water, orE, if_neg ht, div_add_div_same, totalInjectionFlowLh]
  exact div_self (by rw [totalInjectionFlowLh] at ht; exact ht)

/-- C8 witness: equal 1 L/h streams give fractions summing to 1. -/
theorem C8_fraction_sum_witness :
    0 < ({ exBase with chemicalFlow := 1, dilutionWaterFlow := 1 } :
        MixingInputs).chemicalFlow +
      ({ exBase with chemicalFlow := 1, dilutionWaterFlow := 1 } :
        MixingInputs).dilutionWaterFlow ∧
    x_chem { exBase with chemicalFlow := 1, dilutionWaterFlow := 1 } +
      x_water { exBase with chemicalFlow := 1, dilutionWaterFlow := 1 } = 1 :=
  ⟨by norm_num, C8_fraction_sum _ (by norm_num)⟩

/-- C9: the momentum regime returned by `calculateMixing` is the fixed
threshold classification of its momentum ratio: below 0.16 is Low, above
0.24 is High, otherwise Intermediate; in particular 0.15 classifies Low,
0.16 and 0.24 Intermediate, 0.25 High. -/
theorem C9_momentum_regime :
    (∀ i : MixingInputs,
      (calculateMixing i).momentumRegime =
        classifyMomentum ((calculateMixing i).momentumRatio)) ∧
    classifyMomentum 0.15 = .Low ∧
    classifyMomentum 0.16 = .Intermediate ∧
    classifyMomentum 0.24 = .Intermediate ∧
    classifyMomentum 0.25 = .High ∧
    (∀ r : ℝ, r < 0.16 → classifyMomentum r = .Low) ∧
    (∀ r : ℝ, 0.24 < r → classifyMomentum r = .High) ∧
    (∀ r : ℝ, 0.16 ≤ r → r ≤ 0.24 → classifyMomentum r = .Intermediate) := by
  have hLow : ∀ r : ℝ, r < 0.16 → classifyMomentum r = .Low := by
    intro r hi; rw [classifyMomentum, if_pos hi]
  have hHigh : ∀ r : ℝ, 0.24 < r → classifyMomentum r = .High := by
    intro r hi
    rw [classifyMomentum, if_neg (by linarith), if_pos hi]
  have hMid : ∀ r : ℝ, 0.16 ≤ r → r ≤ 0.24 → classifyMomentum r = .Intermediate := by
    intro r h1 h2
    rw [classifyMomentum, if_neg (by linarith), if_neg (by simpa using h2)]
  refine ⟨fun _ => rfl, hLow _ (by norm_num), hMid _ (by norm_num) (by norm_num),
    hMid _ (by norm_num) (by norm_num), hHigh _ (by norm_num), hLow, hHigh, hMid⟩

/-- C9 witness: each of the three regions at a concrete ratio. -/
theorem C9_momentum_regime_witness :
    ((0 : ℝ) < 0.16 ∧ classifyMomentum 0 = .Low) ∧
    ((0.24 : ℝ) < 1 ∧ classifyMomentum 1 = .High) ∧
    ((0.16 : ℝ) ≤ 0.2 ∧ (0.2 : ℝ) ≤ 0.24 ∧ classifyMomentum 0.2 = .Intermediate) :=
  ⟨⟨by norm_num, C9_momentum_regime.2.2.2.2.2.1 0 (by norm_num)⟩,
   ⟨by norm_num, C9_momentum_regime.2.2.2.2.2.2.1 1 (by norm_num)⟩,
   ⟨by norm_num, by norm_num,
    C9_momentum_regime.2.2.2.2.2.2.2 0.2 (by norm_num) (by norm_num)⟩⟩

/-- C10: WEIR has no arm in the `switch (mixerModel)` either, so its CoV,
guidance string, friction factor and mixed length come from the default
(NONE) arm — it agrees with NONE on every field computed before the
headloss line, and differs there only through the fixed 0.15 m headloss. -/
theorem C10_weir_cov_as_none :
    ∀ i : MixingInputs,
      (calculateMixing { i with mixerModel := .WEIR }).mixerCoV =
        (calculateMixing { i with mixerModel := .NONE }).mixerCoV ∧
      (calculateMixing { i with mixerModel := .WEIR }).manufacturerNotes =
        (calculateMixing { i with mixerModel := .NONE }).manufacturerNotes ∧
      LmVal { i with mixerModel := .WEIR } = i.availableLength ∧
      FDval { i with mixerModel := .WEIR } =
        FDval { i with mixerModel := .NONE } ∧
      (calculateMixing { i with mixerModel := .WEIR }).headlossMeters = 0.15 ∧
      (calculateMixing { i with mixerModel := .WEIR }).velocity =
        (calculateMixing { i with mixerModel := .NONE }).velocity ∧
      (calculateMixing { i with mixerModel := .WEIR }).reynoldsNumber =
        (calculateMixing { i with mixerModel := .NONE }).reynoldsNumber ∧
      (calculateMixing { i with mixerModel := .WEIR }).momentumRatio =
        (calculateMixing { i with mixerModel := .NONE }).momentumRatio ∧
      (calculateMixing { i with mixerModel := .WEIR }).momentumRegime =
        (calculateMixing { i with mixerModel := .NONE }).momentumRegime ∧
      (calculateMixing { i with mixerModel := .WEIR }).suggestedOrificeDiameter =
        (calculateMixing { i with mixerModel := .NONE }).suggestedOrificeDiameter ∧
      (calculateMixing { i with mixerModel := .WEIR }).injectedDensity =
        (calculateMixing { i with mixerModel := .NONE }).injectedDensity ∧
      (calculateMixing { i with mixerModel := .WEIR }).injectedViscosity =
        (calculateMixing { i with mixerModel := .NONE }).injectedViscosity ∧
      (calculateMixing { i with mixerModel := .WEIR }).totalInjectionFlow =
        (calculateMixing { i with mixerModel := .NONE }).totalInjectionFlow ∧
      (calculateMixing { i with mixerModel := .WEIR }).limeSaturationLimit =
        (calculateMixing { i with mixerModel := .NONE }).limeSaturationLimit ∧
      (calculateMixing { i with mixerModel := .WEIR }).hydraulicDiameter =
        (calculateMixing { i with mixerModel := .NONE }).hydraulicDiameter ∧
      (calculateMixing { i with mixerModel := .WEIR }).wettedArea =
        (calculateMixing { i with mixerModel := .NONE }).wettedArea :=
  fun _ => ⟨rfl, rfl, rfl, rfl, rfl, rfl, rfl, rfl, rfl, rfl, rfl, rfl, rfl,
    rfl, rfl, rfl⟩

/-- C2 counterexample: a 1 m wide closed rectangular duct with the depth
field left unset.  The destructuring default `depth = 0.5` (line 6) fires
before the `depth || dimension` fallback (line 41), so the duct is treated
as 1 m by 0.5 m, not square: area is 0.5 (not `dimension² = 1`) and the
hydraulic diameter is 2/3 (not `dimension = 1`). -/
theorem C2_square_default_counterexample :
    ({ exBase with depth := none } : MixingInputs).conduitType = .PIPE ∧
    ({ exBase with depth := none } : MixingInputs).conduitShape = .RECTANGULAR ∧
    ({ exBase with depth := none } : MixingInputs).dimension = 1 ∧
    (calculateMixing { exBase with depth := none }).wettedArea = 0.5 ∧
    (calculateMixing { exBase with depth := none }).hydraulicDiameter = 2 / 3 ∧
    (calculateMixing { exBase with depth := none }).wettedArea ≠
      ({ exBase with depth := none } : MixingInputs).dimension ^ 2 ∧
    (calculateMixing { exBase with depth := none }).hydraulicDiameter ≠
      ({ exBase with depth := none } : MixingInputs).dimension := by
  have ha : area { exBase with depth := none } = 0.5 := by
    norm_num [area, depthVal, orE, exBase]
  have hh : hydraulicDiameter { exBase with depth := none } = 2 / 3 := by
    norm_num [hydraulicDiameter, area, perimeter, depthVal, orE, exBase]
  refine ⟨rfl, rfl, rfl, ha, hh, ?_, ?_⟩
  · show area { exBase with depth := none } ≠ _
    rw [ha]; norm_num [exBase]
  · show hydraulicDiameter { exBase with depth := none } ≠ _
    rw [hh]; norm_num [exBase]

/-- C2 amended: for a closed rectangular duct with the depth unset, the
height defaults to 0.5 m (the destructuring default of line 6), giving
area `dimension*0.5` and hydraulic diameter `4*area/(2*(dimension+0.5))`;
the square fallback (height = width) applies only when the depth is
passed as exactly 0. -/
theorem C2_rect_depth_default :
    (∀ i : MixingInputs, i.conduitType = .PIPE → i.conduitShape = .RECTANGULAR →
      i.depth = none →
      (calculateMixing i).wettedArea = i.dimension * 0.5 ∧
      (calculateMixing i).hydraulicDiameter =
        4 * (i.dimension * 0.5) / (2 * (i.dimension + 0.5))) ∧
    (∀ i : MixingInputs, i.conduitType = .PIPE → i.conduitShape = .RECTANGULAR →
      i.depth = some 0 →
      (calculateMixing i).wettedArea = i.dimension * i.dimension ∧
      (calculateMixing i).hydraulicDiameter =
        4 * (i.dimension * i.dimension) / (2 * (i.dimension + i.dimension))) := by
  constructor
  · intro i h1 h2 h3
    have ha : area i = i.dimension * 0.5 := by
      rw [area, h1, h2]
      norm_num [depthVal, h3, orE]
    have hp : perimeter i = 2 * (i.dimension + 0.5) := by
      rw [perimeter, h1, h2]
      norm_num [depthVal, h3, orE]
    constructor
    · exact ha
    · show hydraulicDiameter i = _
      rw [hydraulicDiameter, h1, h2, ha, hp]
  · intro i h1 h2 h3
    have ha : area i = i.dimension * i.dimension := by
      rw [area, h1, h2]
      norm_num [depthVal, h3, orE]
    have hp : perimeter i = 2 * (i.dimension + i.dimension) := by
      rw [perimeter, h1, h2]
      norm_num [depthVal, h3, orE]
    constructor
    · exact ha
    · show hydraulicDiameter i = _
      rw [hydraulicDiameter, h1, h2, ha, hp]

/-- C2 witness: both the unset-depth and zero-depth cases at concrete inputs. -/
theorem C2_rect_depth_default_witness :
    ((calculateMixing { exBase with depth := none }).wettedArea =
        ({ exBase with depth := none } : MixingInputs).dimension * 0.5) ∧
    ((calculateMixing { exBase with depth := some 0 }).wettedArea =
      ({ exBase with depth := some 0 } : MixingInputs).dimension *
        ({ exBase with depth := some 0 } : MixingInputs).dimension) :=
  ⟨(C2_rect_depth_default.1 _ rfl rfl rfl).1,
   (C2_rect_depth_default.2 _ rfl rfl rfl).1⟩

/-- The dissolution rate constant of line 164 is strictly positive for
every input: the turbulence factor is at least √(1/100) and the headroom
factor is floored at 0.1. -/
theorem rateK_pos (i : MixingInputs) : 0 < rateK i := by
  rw [rateK]
  have h1 : 0 < Real.sqrt (max 1 (gValue i) / 100) :=
    Real.sqrt_pos.mpr
      (div_pos (lt_of_lt_of_le one_pos (le_max_left _ _)) (by norm_num))
  have h2 : (0:ℝ) < max 0.1
      ((limeSaturationLimit i - i.chemicalDose) / limeSaturationLimit i) :=
    lt_of_lt_of_le (by norm_num) (le_max_left _ _)
  have h3 : (0:ℝ) < 0.3 := by norm_num
  exact mul_pos (mul_pos h3 h1) h2

theorem Re_cex4n (n : ℝ) : Re (cex4n n) = 1 := by
  norm_num [Re, velocity, Q_m3s, area, perimeter, hydraulicDiameter, depthVal,
    orE, cex4n, exBase]

theorem alpha_cex4n (n : ℝ) : alpha (cex4n n) = 1 := by
  norm_num [alpha, Q_m3s, totalInjectionFlowLh, orE, cex4n, exBase]

/-- Updating only the element count leaves the Reynolds number unchanged
(line 55 does not read `numElements`). -/
theorem Re_update_elements (i : MixingInputs) (n : ℝ) :
    Re { i with numElements := n } = Re i := rfl

/-- Updating only the element count leaves the dilution ratio unchanged
(line 73 does not read `numElements`). -/
theorem alpha_update_elements (i : MixingInputs) (n : ℝ) :
    alpha { i with numElements := n } = alpha i := rfl

/-- The KENICS_KM SINGLE arm of the CoV switch (line 86). -/
theorem covRaw_kenics_single (i : MixingInputs) (hm : i.mixerModel = .KENICS_KM)
    (hinj : i.injectionType = .SINGLE) :
    covRaw i = 0.96 * Re i ^ (-0.1:ℝ) * alpha i ^ (0.03:ℝ) *
      i.numElements ^ (-1.9:ℝ) := by
  simp only [covRaw, hm, hinj, if_pos]

theorem covRaw_cex4n (n : ℝ) : covRaw (cex4n n) = 0.96 * n ^ (-1.9 : ℝ) := by
  rw [covRaw_kenics_single (cex4n n) rfl rfl]
  show 0.96 * Re (cex4n n) ^ (-0.1:ℝ) * alpha (cex4n n) ^ (0.03:ℝ) *
      n ^ (-1.9:ℝ) = _
  rw [Re_cex4n, alpha_cex4n, Real.one_rpow, Real.one_rpow]
  ring

/-- C4 counterexample: at `Re = 1`, `alpha = 1` the raw KENICS single
correlation is `0.96·n^{-1.9}`, which is below the 0.0001 floor at both
1024 and 2^20 elements; both element counts return a clamped mixerCoV of
exactly 0.0001, so increasing the element count does not strictly decrease
the returned value. -/
theorem C4_strict_decrease_counterexample :
    (cex4n 1024).mixerModel = .KENICS_KM ∧
    (cex4n 1024).injectionType = .SINGLE ∧
    ((1024:ℝ) < 1048576) ∧
    (calculateMixing (cex4n 1024)).mixerCoV = 0.0001 ∧
    (calculateMixing (cex4n 1048576)).mixerCoV = 0.0001 ∧
    ¬ ((calculateMixing (cex4n 1048576)).mixerCoV <
        (calculateMixing (cex4n 1024)).mixerCoV) := by
  have h1 : covRaw (cex4n 1024) = 0.96 * (2:ℝ) ^ (-19 : ℤ) := by
    rw [covRaw_cex4n]
    have : (1024:ℝ) = (2:ℝ) ^ (10:ℕ) := by norm_num
    rw [this, ← Real.rpow_natCast 2 10, ← Real.rpow_mul (by norm_num),
      ← Real.rpow_intCast 2 (-19)]
    norm_num
  have h2 : covRaw (cex4n 1048576) = 0.96 * (2:ℝ) ^ (-38 : ℤ) := by
    rw [covRaw_cex4n]
    have : (1048576:ℝ) = (2:ℝ) ^ (20:ℕ) := by norm_num
    rw [this, ← Real.rpow_natCast 2 20, ← Real.rpow_mul (by norm_num),
      ← Real.rpow_intCast 2 (-38)]
    norm_num
  have e1 : (calculateMixing (cex4n 1024)).mixerCoV = 0.0001 := by
    show min 1 (max 0.0001 (covRaw (cex4n 1024))) = 0.0001
    rw [h1, max_eq_left (by norm_num), min_eq_right (by norm_num)]
  have e2 : (calculateMixing (cex4n 1048576)).mixerCoV = 0.0001 := by
    show min 1 (max 0.0001 (covRaw (cex4n 1048576))) = 0.0001
    rw [h2, max_eq_left (by norm_num), min_eq_right (by norm_num)]
  refine ⟨rfl, rfl, by norm_num, e1, e2, ?_⟩
  rw [e1, e2]
  exact lt_irrefl _

/-- C4 amended: for KENICS_KM with SINGLE injection, holding everything
else fixed, increasing the element count strictly decreases the raw
correlation value whenever Re, alpha and the counts are positive, and the
returned (clamped) mixerCoV is non-increasing; strictness of the returned
value can be lost when the [0.0001, 1] clamp saturates. -/
theorem C4_elements_decrease :
    ∀ (i : MixingInputs) (n1 n2 : ℝ),
      i.mixerModel = .KENICS_KM → i.injectionType = .SINGLE →
      0 < n1 → n1 < n2 → 0 < Re i → 0 < alpha i →
      covRaw { i with numElements := n2 } < covRaw { i with numElements := n1 } ∧
      (calculateMixing { i with numElements := n2 }).mixerCoV ≤
        (calculateMixing { i with numElements := n1 }).mixerCoV := by
  intro i n1 n2 hm hinj h1 h12 hRe hal
  have hcov : ∀ n : ℝ, covRaw { i with numElements := n } =
      0.96 * Re i ^ (-0.1:ℝ) * alpha i ^ (0.03:ℝ) * n ^ (-1.9:ℝ) := by
    intro n
    rw [covRaw_kenics_single { i with numElements := n } hm hinj,
      Re_update_elements, alpha_update_elements]
  have hmono : ((n2:ℝ) ^ (-1.9:ℝ)) < n1 ^ (-1.9:ℝ) := by
    rw [show (-1.9:ℝ) = -(1.9:ℝ) by norm_num, Real.rpow_neg (le_of_lt h1),
      Real.rpow_neg (le_of_lt (lt_trans h1 h12))]
    exact inv_strictAnti₀ (Real.rpow_pos_of_pos h1 _)
      (Real.rpow_lt_rpow (le_of_lt h1) h12 (by norm_num))
  have hC : (0:ℝ) < 0.96 * Re i ^ (-0.1:ℝ) * alpha i ^ (0.03:ℝ) :=
    mul_pos (mul_pos (by norm_num) (Real.rpow_pos_of_pos hRe _))
      (Real.rpow_pos_of_pos hal _)
  have hraw : covRaw { i with numElements := n2 } <
      covRaw { i with numElements := n1 } := by
    rw [hcov n1, hcov n2]
    exact mul_lt_mul_of_pos_left hmono hC
  exact ⟨hraw, min_le_min le_rfl (max_le_max le_rfl (le_of_lt hraw))⟩

/-- C4 amended witness: the monotonicity at the concrete `Re = alpha = 1`
input, going from 1 to 2 elements. -/
theorem C4_elements_decrease_witness :
    (0:ℝ) < 1 ∧ (1:ℝ) < 2 ∧ 0 < Re (cex4n 1) ∧ 0 < alpha (cex4n 1) ∧
    covRaw { cex4n 1 with numElements := (2:ℝ) } <
      covRaw { cex4n 1 with numElements := (1:ℝ) } ∧
    (calculateMixing { cex4n 1 with numElements := (2:ℝ) }).mixerCoV ≤
      (calculateMixing { cex4n 1 with numElements := (1:ℝ) }).mixerCoV := by
  have h := C4_elements_decrease (cex4n 1) 1 2 rfl rfl one_pos one_lt_two
    (by rw [Re_cex4n]; norm_num) (by rw [alpha_cex4n]; norm_num)
  exact ⟨one_pos, one_lt_two, by rw [Re_cex4n]; norm_num,
    by rw [alpha_cex4n]; norm_num, h.1, h.2⟩

/-! ### Lemmas about the checked operations -/

theorem jsDiv_some (x y : ℝ) (h : y ≠ 0) : jsDiv x y = some (x / y) := if_neg h

theorem jsDiv_zero (x : ℝ) : jsDiv x 0 = none := if_pos rfl

theorem jsLog_some (x : ℝ) (h : 0 < x) : jsLog x = some (Real.log x) := if_pos h

theorem jsLog10_some (x : ℝ) (h : 0 < x) : jsLog10 x = some (Real.logb 10 x) :=
  if_pos h

theorem jsSqrt_some (x : ℝ) (h : 0 ≤ x) : jsSqrt x = some (Real.sqrt x) := if_pos h

theorem jsPow_some (x y : ℝ) (h : 0 < x) : jsPow x y = some (x ^ y) :=
  if_pos (Or.inl h)

theorem someBindM {α β : Type} (a : α) (f : α → Option β) :
    (some a : Option α) >>= f = f a := rfl

theorem noneBindM {α β : Type} (f : α → Option β) :
    (none : Option α) >>= f = none := rfl

theorem orE_of_ne {x : ℝ} (y : ℝ) (h : x ≠ 0) : orE x y = x := if_neg h

theorem orE_ne_zero (x : ℝ) {y : ℝ} (hy : y ≠ 0) : orE x y ≠ 0 := by
  rw [orE]
  by_cases hx : x = 0
  · rw [if_pos hx]; exact hy
  · rw [if_neg hx]; exact hx

theorem orE_pos {x : ℝ} (y : ℝ) (hx : 0 ≤ x) (hy : 0 < y) : 0 < orE x y := by
  rw [orE]
  by_cases h : x = 0
  · rw [if_pos h]; exact hy
  · rw [if_neg h]; exact lt_of_le_of_ne hx (Ne.symm h)

theorem orE_nonneg {x : ℝ} (y : ℝ) (hx : 0 ≤ x) (hy : 0 ≤ y) : 0 ≤ orE x y := by
  rw [orE]
  by_cases h : x = 0
  · rw [if_pos h]; exact hy
  · rw [if_neg h]; exact hx

theorem jsDiv_orE1 (x z : ℝ) : jsDiv x (orE z 1) = some (x / orE z 1) :=
  jsDiv_some _ _ (orE_ne_zero _ one_ne_zero)

theorem jsDiv_orE01 (x z : ℝ) : jsDiv x (orE z 0.1) = some (x / orE z 0.1) :=
  jsDiv_some _ _ (orE_ne_zero _ (by norm_num))

theorem jsDiv_orE3 (x z : ℝ) : jsDiv x (orE z 0.001) = some (x / orE z 0.001) :=
  jsDiv_some _ _ (orE_ne_zero _ (by norm_num))

theorem jsDiv_orE6 (x z : ℝ) :
    jsDiv x (orE z 0.000001) = some (x / orE z 0.000001) :=
  jsDiv_some _ _ (orE_ne_zero _ (by norm_num))

theorem jsDiv_orE9 (x z : ℝ) :
    jsDiv x (orE z 0.000000001) = some (x / orE z 0.000000001) :=
  jsDiv_some _ _ (orE_ne_zero _ (by norm_num))

theorem jsSqrt_max1 (z : ℝ) :
    jsSqrt (max 1 z / 100) = some (Real.sqrt (max 1 z / 100)) :=
  jsSqrt_some _ (div_nonneg (le_trans zero_le_one (le_max_left _ _)) (by norm_num))

/-! ### Positivity facts about the stages -/

theorem area_pos (i : MixingInputs) (h1 : 0 < i.dimension)
    (h2 : 0 < depthVal i) : 0 < area i := by
  rcases hct : i.conduitType <;> rcases hcs : i.conduitShape <;>
    simp only [area, hct, hcs]
  · exact mul_pos Real.pi_pos (pow_pos (by linarith) 2)
  · rw [orE_of_ne _ (ne_of_gt h2)]; exact mul_pos h1 h2
  · exact mul_pos h1 h2
  · exact mul_pos h1 h2

theorem perimeter_pos (i : MixingInputs) (h1 : 0 < i.dimension)
    (h2 : 0 < depthVal i) : 0 < perimeter i := by
  rcases hct : i.conduitType <;> rcases hcs : i.conduitShape <;>
    simp only [perimeter, hct, hcs]
  · exact mul_pos Real.pi_pos h1
  · rw [orE_of_ne _ (ne_of_gt h2)]; linarith
  · linarith
  · linarith

theorem hd_pos (i : MixingInputs) (h1 : 0 < i.dimension)
    (h2 : 0 < depthVal i) : 0 < hydraulicDiameter i := by
  rcases hct : i.conduitType <;> rcases hcs : i.conduitShape <;>
    simp only [hydraulicDiameter, hct, hcs]
  · exact h1
  · exact div_pos (mul_pos (by norm_num) (area_pos i h1 h2))
      (perimeter_pos i h1 h2)
  · exact div_pos (mul_pos (by norm_num) (area_pos i h1 h2)) (by linarith)
  · exact div_pos (mul_pos (by norm_num) (area_pos i h1 h2)) (by linarith)

theorem velocity_pos (i : MixingInputs) (hq : 0 < i.flowRate)
    (ha : 0 < area i) : 0 < velocity i := by
  rw [velocity, orE_of_ne _ (ne_of_gt ha)]
  exact div_pos (div_pos hq (by norm_num)) ha

theorem Re_pos (i : MixingInputs) (hde : 0 < i.density) (hv : 0 < velocity i)
    (hh : 0 < hydraulicDiameter i) (hvi : 0 < i.viscosity) : 0 < Re i := by
  rw [Re, orE_of_ne _ (ne_of_gt hvi)]
  exact div_pos (mul_pos (mul_pos hde hv) hh) hvi

theorem alpha_pos_zero_flows (i : MixingInputs) (hc : i.chemicalFlow = 0)
    (hdw : i.dilutionWaterFlow = 0) (hq : 0 < i.flowRate) : 0 < alpha i := by
  rw [alpha, totalInjectionFlowLh, hc, hdw]
  rw [show (0:ℝ) + 0 = 0 by norm_num, orE, if_pos rfl, div_one, Q_m3s]
  exact mul_pos (div_pos hq (by norm_num)) (by norm_num)

theorem satLim_pos (i : MixingInputs) (h0 : 0 ≤ i.waterTemperature)
    (h100 : i.waterTemperature ≤ 100) : 0 < limeSaturationLimit i := by
  rw [limeSaturationLimit]
  nlinarith [mul_le_mul_of_nonneg_left h100 h0]

theorem FDval_nonneg (i : MixingInputs) : 0 ≤ FDval i := by
  rcases hm : i.mixerModel <;> simp only [FDval, hm]
  · exact div_nonneg (by norm_num) (sq_nonneg _)
  · norm_num
  · split <;> norm_num
  · norm_num
  · split
    · split
      · norm_num
      · split <;> norm_num
    · split <;> norm_num
  · exact div_nonneg (by norm_num) (sq_nonneg _)
  · exact div_nonneg (by norm_num) (sq_nonneg _)

theorem LmVal_nonneg (i : MixingInputs) (hn : 0 ≤ i.numElements)
    (hh : 0 ≤ hydraulicDiameter i) (hl : 0 ≤ i.availableLength) :
    0 ≤ LmVal i := by
  rcases hm : i.mixerModel <;> simp only [LmVal, hm]
  · exact hl
  · exact mul_nonneg (mul_nonneg hn (by norm_num)) hh
  · exact mul_nonneg hn hh
  · exact mul_nonneg hn hh
  · split <;> exact mul_nonneg (mul_nonneg hn (by norm_num)) hh
  · exact hl
  · exact hl

theorem headlossMeters_nonneg (i : MixingInputs) (hFD : 0 ≤ FDval i)
    (hLm : 0 ≤ LmVal i) (hh : 0 ≤ hydraulicDiameter i) :
    0 ≤ headlossMeters i := by
  rw [headlossMeters]
  split
  · norm_num
  · exact div_nonneg (mul_nonneg (mul_nonneg hFD hLm) (sq_nonneg _))
      (mul_nonneg (mul_nonneg (by norm_num) (by norm_num [g])) hh)

theorem mixerCoV_pos (i : MixingInputs) : 0 < mixerCoV i := by
  show (0:ℝ) < min 1 (max 0.0001 (covRaw i))
  exact lt_min (by norm_num) (lt_of_lt_of_le (by norm_num) (le_max_left _ _))

/-! ### Success of each checked step, with the plain-model value -/

theorem xcChecked (i : MixingInputs) :
    jsDiv i.chemicalFlow (orE (totalInjectionFlowLh i) 1) = some (x_chem i) := by
  rw [jsDiv_orE1]; rfl

theorem xwChecked (i : MixingInputs) :
    jsDiv i.dilutionWaterFlow (orE (totalInjectionFlowLh i) 1) =
      some (x_water i) := by
  rw [jsDiv_orE1]; rfl

theorem lcvChecked (i : MixingInputs) (h : 0 ≤ i.chemicalViscosity) :
    jsLog (orE i.chemicalViscosity 0.000001) =
      some (Real.log (orE i.chemicalViscosity 0.000001)) :=
  jsLog_some _ (orE_pos _ h (by norm_num))

theorem lwvChecked :
    jsLog (orE waterViscosity 0.000001) =
      some (Real.log (orE waterViscosity 0.000001)) :=
  jsLog_some _ (orE_pos _ (by norm_num [waterViscosity]) (by norm_num))

theorem hdChecked_some (i : MixingInputs) (h1 : 0 < i.dimension)
    (h2 : 0 < depthVal i) : hdChecked i = some (hydraulicDiameter i) := by
  rcases hct : i.conduitType <;> rcases hcs : i.conduitShape <;>
    simp only [hdChecked, hydraulicDiameter, hct, hcs]
  · rfl
  · exact jsDiv_some _ _ (ne_of_gt (perimeter_pos i h1 h2))
  · exact jsDiv_some _ _ (by linarith)
  · exact jsDiv_some _ _ (by linarith)

theorem vChecked (i : MixingInputs) :
    jsDiv (Q_m3s i) (orE (area i) 0.000001) = some (velocity i) := by
  rw [jsDiv_orE6]; rfl

theorem reChecked (i : MixingInputs) :
    jsDiv (i.density * velocity i * hydraulicDiameter i)
      (orE i.viscosity 0.000001) = some (Re i) := by
  rw [jsDiv_orE6]; rfl

theorem drqChecked (i : MixingInputs) :
    jsDiv (x_chem i * i.chemicalDensity + x_water i * waterDensity)
      (orE i.density 1) = some (injectedDensity i / orE i.density 1) := by
  rw [jsDiv_orE1]; rfl

theorem injectedDensity_zero_flows (i : MixingInputs) (hc : i.chemicalFlow = 0)
    (hdw : i.dilutionWaterFlow = 0) : injectedDensity i = 0 := by
  rw [injectedDensity, x_chem, x_water, hc, hdw, zero_div]
  ring

theorem sodChecked (i : MixingInputs) :
    jsDiv (4 * flowPerPointM3s i * Real.sqrt (injectedDensity i / orE i.density 1))
      (orE (Real.pi * targetMR * velocity i * hydraulicDiameter i) 0.000001) =
      some (suggestedOrificeDiameterM i) := by
  rw [jsDiv_orE6]; rfl

theorem uinjChecked (i : MixingInputs) :
    jsDiv (flowPerPointM3s i)
      (orE (Real.pi * (d_inj_default / 2) ^ 2) 0.000000001) =
      some (u_inj_actual i) := by
  rw [jsDiv_orE9]; rfl

theorem mrqChecked (i : MixingInputs) :
    jsDiv (u_inj_actual i * d_inj_default)
      (orE (velocity i * hydraulicDiameter i) 0.000001) =
      some (u_inj_actual i * d_inj_default /
        orE (velocity i * hydraulicDiameter i) 0.000001) :=
  jsDiv_orE6 _ _

theorem momentumRatio_eq (i : MixingInputs) :
    Real.sqrt (injectedDensity i / orE i.density 1) *
      (u_inj_actual i * d_inj_default /
        orE (velocity i * hydraulicDiameter i) 0.000001) = momentumRatio i := rfl

theorem alChecked (i : MixingInputs) :
    jsDiv (Q_m3s i * 3600000) (orE (totalInjectionFlowLh i) 1) =
      some (alpha i) := by
  rw [jsDiv_orE1]; rfl

theorem ldChecked (i : MixingInputs) (h : hydraulicDiameter i ≠ 0) :
    jsDiv i.availableLength (hydraulicDiameter i) = some (LD i) := by
  rw [jsDiv_some _ _ h]; rfl

/-- Success of the checked `switch (mixerModel)` with the plain-model
values, under positivity of the correlation arguments; the default
(Colebrook) arm additionally needs its `log10` argument away from 1. -/
theorem covFdLm_some (i : MixingInputs) (hre : 0 < Re i) (hal : 0 < alpha i)
    (hld : i.conduitType = .CHANNEL → 0 < LD i)
    (hn : 0 < i.numElements) (hhd : 0 < hydraulicDiameter i)
    (hcb : (i.mixerModel = .NONE ∨ i.mixerModel = .BAFFLES ∨
        i.mixerModel = .WEIR) →
      0.0001 / (3.7 * hydraulicDiameter i) + 5.74 / Re i ^ (0.9:ℝ) ≠ 1) :
    covFdLmChecked i (Re i) (alpha i) (LD i) (momentumRatio i)
      (hydraulicDiameter i) = some (covRaw i, FDval i, LmVal i) := by
  have harg : 0 < 0.0001 / (3.7 * hydraulicDiameter i) + 5.74 / Re i ^ (0.9:ℝ) :=
    add_pos (div_pos (by norm_num) (mul_pos (by norm_num) hhd))
      (div_pos (by norm_num) (Real.rpow_pos_of_pos hre _))
  rcases hm : i.mixerModel
  case KENICS_KM =>
    simp only [covFdLmChecked, covRaw, FDval, LmVal, hm]
    rcases hinj : i.injectionType
    · simp only [if_pos hinj, if_true]
      rw [jsPow_some _ _ hre, jsPow_some _ _ hal, jsPow_some _ _ hn]
      simp only [someBindM, Option.pure_def]
    · simp only [if_neg (by decide : ¬ (InjectionType.TWIN = InjectionType.SINGLE)), if_false]
      rw [jsPow_some _ _ hre, jsPow_some _ _ hal, jsPow_some _ _ hn]
      simp only [someBindM, Option.pure_def]
  case HEV =>
    simp only [covFdLmChecked, covRaw, FDval, LmVal, hm]
    rcases hct : i.conduitType
    · simp only [if_neg (by decide : ¬ (ConduitType.PIPE = ConduitType.CHANNEL)), if_false]
      by_cases h3 : LD i ≤ 3
      · simp only [if_pos h3, if_true]
        rw [jsPow_some _ _ hre, jsPow_some _ _ hal, jsPow_some _ _ hn]
        simp only [someBindM, Option.pure_def]
      · simp only [if_neg h3, if_false]
        rw [jsPow_some _ _ hre, jsPow_some _ _ hal, jsPow_some _ _ hn]
        simp only [someBindM, Option.pure_def]
    · simp only [if_pos hct, if_true]
      rw [jsPow_some _ _ (hld hct), jsPow_some _ _ hn, jsPow_some _ _ hre]
      simp only [someBindM, Option.pure_def]
  case SMV =>
    simp only [covFdLmChecked, covRaw, FDval, LmVal, hm]
    rw [jsPow_some _ _ hre, jsPow_some _ _ hal, jsPow_some _ _ hn]
    simp only [someBindM, Option.pure_def]
  case STM =>
    simp only [covFdLmChecked, covRaw, FDval, LmVal, hm]
    rcases hct : i.conduitType
    · simp only [if_neg (by decide : ¬ (ConduitType.PIPE = ConduitType.CHANNEL)), if_false]
      by_cases hp5 : i.pitchRatio = .PR_1_5
      · simp only [if_pos hp5, if_true]
        rw [jsPow_some _ _ hre, jsPow_some _ _ hal, jsPow_some _ _ hn]
        simp only [someBindM, Option.pure_def]
      · simp only [if_neg hp5, if_false]
        rw [jsPow_some _ _ hre, jsPow_some _ _ hal, jsPow_some _ _ hn]
        simp only [someBindM, Option.pure_def]
    · simp only [if_pos hct, if_true]
      by_cases hp1 : i.pitchRatio = .PR_1_125
      · simp only [if_pos hp1, if_true]
        rw [jsPow_some _ _ (hld hct), jsPow_some _ _ hn, jsPow_some _ _ hal,
          jsPow_some _ _ hre]
        simp only [someBindM, Option.pure_def]
      · simp only [if_neg hp1, if_false]
        by_cases hp5 : i.pitchRatio = .PR_1_5
        · simp only [if_pos hp5, if_true]
          rw [jsPow_some _ _ (hld hct), jsPow_some _ _ hn, jsPow_some _ _ hal,
            jsPow_some _ _ hre]
          simp only [someBindM, Option.pure_def]
        · simp only [if_neg hp5, if_false]
          rw [jsPow_some _ _ (hld hct), jsPow_some _ _ hn, jsPow_some _ _ hal,
            jsPow_some _ _ hre]
          simp only [someBindM, Option.pure_def]
  all_goals {
    have hne := hcb (by rw [hm]; decide)
    simp only [covFdLmChecked, covRaw, FDval, LmVal, hm]
    rw [jsDiv_some _ _ (ne_of_gt (mul_pos (by norm_num) hhd)),
      jsPow_some _ _ hre]
    simp only [someBindM]
    rw [jsDiv_some _ _ (ne_of_gt (Real.rpow_pos_of_pos hre _))]
    simp only [someBindM]
    rw [jsLog10_some _ harg]
    simp only [someBindM]
    have hlg : Real.logb 10
        (0.0001 / (3.7 * hydraulicDiameter i) + 5.74 / Re i ^ (0.9:ℝ)) ≠ 0 :=
      Real.logb_ne_zero_of_pos_of_ne_one (by norm_num) harg hne
    rw [jsDiv_some _ _ (pow_ne_zero 2 hlg)]
    simp only [someBindM]
    rcases hct : i.conduitType
    · simp only [if_neg (by decide : ¬ (ConduitType.PIPE = ConduitType.CHANNEL)), if_false]
      rw [jsSqrt_some _ (le_of_lt hal),
        jsSqrt_some _ (div_nonneg (by norm_num) (sq_nonneg _))]
      simp only [someBindM, Option.pure_def]
    · simp only [if_pos hct, if_true]
      rw [jsPow_some _ _ (hld hct),
        jsPow_some _ _ (lt_of_lt_of_le (by norm_num) (le_max_left (0.01:ℝ)
          (momentumRatio i)))]
      simp only [someBindM, Option.pure_def]
  }

theorem hlChecked_some (i : MixingInputs) (hhd : hydraulicDiameter i ≠ 0) :
    hlChecked i (FDval i) (LmVal i) (velocity i) (hydraulicDiameter i) =
      some (headlossMeters i) := by
  simp only [hlChecked, headlossMeters]
  by_cases h : i.mixerModel = .WEIR
  · simp only [if_pos h, if_true]
    rfl
  · simp only [if_neg h, if_false]
    exact jsDiv_some _ _
      (mul_ne_zero (mul_ne_zero (by norm_num) (by norm_num [g])) hhd)

theorem mdn_some (i : MixingInputs) (ht : 0 < i.targetCoV) :
    mdnChecked i (mixerCoV i) (LmVal i) (hydraulicDiameter i) =
      some (mixingDistanceNeeded i) := by
  simp only [mdnChecked, mixingDistanceNeeded]
  by_cases h : mixerCoV i ≤ i.targetCoV
  · simp only [if_pos h, if_true]
    rfl
  · simp only [if_neg h, if_false]
    rw [jsDiv_some _ _ (ne_of_gt ht)]
    simp only [someBindM]
    rw [jsLog_some _ (div_pos (mixerCoV_pos i) ht)]
    simp only [someBindM]
    rw [jsDiv_orE01]
    simp only [someBindM, Option.pure_def]

theorem checkedHydraulics_some (i : MixingInputs)
    (hsd : 0 ≤ injectedDensity i / orE i.density 1)
    (hcv : 0 ≤ i.chemicalViscosity)
    (hdim : 0 < i.dimension) (hdep : 0 < depthVal i) :
    checkedHydraulics i = some ⟨injectedDensity i, injectedViscosity i,
      hydraulicDiameter i, velocity i, Re i, momentumRatio i,
      suggestedOrificeDiameterM i, alpha i, LD i⟩ := by
  have hH : hydraulicDiameter i ≠ 0 := ne_of_gt (hd_pos i hdim hdep)
  rw [checkedHydraulics]
  rw [xcChecked, xwChecked, lcvChecked i hcv, lwvChecked,
    hdChecked_some i hdim hdep, vChecked]
  simp only [someBindM]
  rw [reChecked, drqChecked]
  simp only [someBindM]
  rw [jsSqrt_some _ hsd]
  simp only [someBindM]
  rw [sodChecked, uinjChecked]
  simp only [someBindM]
  rw [mrqChecked]
  simp only [someBindM]
  rw [alChecked, ldChecked i hH]
  simp only [someBindM]
  rw [momentumRatio_eq]
  rfl

theorem checkedRest_some (i : MixingInputs)
    (hq : 0 < i.flowRate) (hdim : 0 < i.dimension) (hdep : 0 < depthVal i)
    (hden : 0 < i.density) (hvis : 0 < i.viscosity)
    (hAL : 0 < alpha i)
    (hn : 0 < i.numElements) (ht : 0 < i.targetCoV)
    (hw0 : 0 ≤ i.waterTemperature) (hw100 : i.waterTemperature ≤ 100)
    (hLDc : i.conduitType = .CHANNEL → 0 < LD i)
    (hhlm : 0 ≤ headlossMeters i)
    (hcb : (i.mixerModel = .NONE ∨ i.mixerModel = .BAFFLES ∨
        i.mixerModel = .WEIR) →
      0.0001 / (3.7 * hydraulicDiameter i) + 5.74 / Re i ^ (0.9:ℝ) ≠ 1) :
    checkedRest i ⟨injectedDensity i, injectedViscosity i,
      hydraulicDiameter i, velocity i, Re i, momentumRatio i,
      suggestedOrificeDiameterM i, alpha i, LD i⟩ =
      some (calculateMixing i) := by
  have hA : 0 < area i := area_pos i hdim hdep
  have hH : 0 < hydraulicDiameter i := hd_pos i hdim hdep
  have hV : 0 < velocity i := velocity_pos i hq hA
  have hRE : 0 < Re i := Re_pos i hden hV hH hvis
  have hsat : 0 < limeSaturationLimit i := satLim_pos i hw0 hw100
  have hQ : 0 ≤ Q_m3s i := by rw [Q_m3s]; exact div_nonneg hq.le (by norm_num)
  have hgq : 0 ≤ headlossMeters i * i.density * g / 1000 * 1000 * Q_m3s i /
      orE (i.viscosity * (area i * max (LmVal i) (hydraulicDiameter i)))
        0.000000001 := by
    apply div_nonneg
    · exact mul_nonneg (mul_nonneg (div_nonneg (mul_nonneg
        (mul_nonneg hhlm hden.le) (by norm_num [g])) (by norm_num))
        (by norm_num)) hQ
    · exact orE_nonneg _ (mul_nonneg hvis.le (mul_nonneg hA.le
        (le_trans hH.le (le_max_right _ _)))) (by norm_num)
  rw [checkedRest]
  dsimp only
  rw [covFdLm_some i hRE hAL hLDc hn hH hcb]
  simp only [someBindM]
  dsimp only
  rw [show min 1 (max 0.0001 (covRaw i)) = mixerCoV i from rfl]
  rw [hlChecked_some i (ne_of_gt hH)]
  simp only [someBindM]
  rw [jsDiv_orE9]
  simp only [someBindM]
  rw [jsSqrt_some _ hgq]
  simp only [someBindM]
  rw [jsDiv_some _ _ (ne_of_gt hsat)]
  simp only [someBindM]
  rw [jsSqrt_max1]
  simp only [someBindM]
  rw [jsDiv_orE3]
  simp only [someBindM]
  rw [mdn_some i ht]
  simp only [someBindM]
  rw [jsDiv_orE6, jsDiv_orE6]
  simp only [someBindM]
  rfl

/-- Composite success of the checked pipeline: when the square-root
argument of line 62 is non-negative, the correlation arguments are
positive, the `LD` power-law base is positive whenever a channel branch
reads it, the headloss is non-negative and the Colebrook `log10` argument
avoids 1, the Option-valued pipeline succeeds and returns exactly the
plain-model record. -/
theorem calculateMixingChecked_some (i : MixingInputs)
    (hsd : 0 ≤ injectedDensity i / orE i.density 1)
    (hcv : 0 ≤ i.chemicalViscosity)
    (hq : 0 < i.flowRate) (hdim : 0 < i.dimension) (hdep : 0 < depthVal i)
    (hden : 0 < i.density) (hvis : 0 < i.viscosity)
    (hAL : 0 < alpha i) (hn : 0 < i.numElements) (ht : 0 < i.targetCoV)
    (hw0 : 0 ≤ i.waterTemperature) (hw100 : i.waterTemperature ≤ 100)
    (hLDc : i.conduitType = .CHANNEL → 0 < LD i)
    (hhlm : 0 ≤ headlossMeters i)
    (hcb : (i.mixerModel = .NONE ∨ i.mixerModel = .BAFFLES ∨
        i.mixerModel = .WEIR) →
      0.0001 / (3.7 * hydraulicDiameter i) + 5.74 / Re i ^ (0.9:ℝ) ≠ 1) :
    calculateMixingChecked i = some (calculateMixing i) := by
  rw [calculateMixingChecked]
  rw [checkedHydraulics_some i hsd hcv hdim hdep]
  simp only [someBindM]
  exact checkedRest_some i hq hdim hdep hden hvis hAL hn ht hw0 hw100
    hLDc hhlm hcb

/-- C7 amended: with zero chemical and dilution flows and otherwise
well-formed inputs — positive bulk flow, dimension, depth, density,
viscosity, element count, available length and target CoV, non-negative
chemical viscosity, water temperature in [0, 100] °C — the checked
pipeline succeeds: no division by zero and no log/sqrt/pow domain error
occurs, so no non-finite value arises, and the result is exactly the
plain-model result; the one extra proviso the counterexample forces is
that, when the model falls through to the default Colebrook friction
factor (NONE, BAFFLES or WEIR), the argument of its `log10` must differ
from 1, since at exactly 1 the friction factor is 0.25/0.  The engine is a
total function, so it never raises. -/
theorem C7_zero_flow_checked :
    ∀ i : MixingInputs,
      i.chemicalFlow = 0 → i.dilutionWaterFlow = 0 →
      0 < i.flowRate → 0 < i.dimension → 0 < depthVal i →
      0 < i.density → 0 < i.viscosity → 0 ≤ i.chemicalViscosity →
      0 < i.availableLength → 0 < i.numElements → 0 < i.targetCoV →
      0 ≤ i.waterTemperature → i.waterTemperature ≤ 100 →
      ((i.mixerModel = .NONE ∨ i.mixerModel = .BAFFLES ∨
          i.mixerModel = .WEIR) →
        0.0001 / (3.7 * hydraulicDiameter i) + 5.74 / Re i ^ (0.9:ℝ) ≠ 1) →
      calculateMixingChecked i = some (calculateMixing i) := by
  intro i hc hdw hq hdim hdep hden hvis hcv hlen hn ht hw0 hw100 hcb
  have hAL : 0 < alpha i := alpha_pos_zero_flows i hc hdw hq
  have hsd : 0 ≤ injectedDensity i / orE i.density 1 := by
    rw [injectedDensity_zero_flows i hc hdw, zero_div]
  have hH : 0 < hydraulicDiameter i := hd_pos i hdim hdep
  have hLDc : i.conduitType = .CHANNEL → 0 < LD i := fun _ => by
    rw [LD]; exact div_pos hlen hH
  have hhlm : 0 ≤ headlossMeters i :=
    headlossMeters_nonneg i (FDval_nonneg i)
      (LmVal_nonneg i hn.le hH.le hlen.le) hH.le
  exact calculateMixingChecked_some i hsd hcv hq hdim hdep hden hvis hAL
    hn ht hw0 hw100 hLDc hhlm hcb

theorem covFdLm_cex7_none : ∀ al ld mr : ℝ,
    covFdLmChecked cex7 ((212380 / 36999 : ℝ) ^ ((10 : ℝ) / 9)) al ld mr 1 =
      none := by
  intro al ld mr
  have hmm : cex7.mixerModel = .NONE := rfl
  simp only [covFdLmChecked, hmm]
  rw [jsDiv_some _ _ (by norm_num : (3.7:ℝ) * 1 ≠ 0)]
  simp only [someBindM]
  rw [jsPow_some _ _ (Real.rpow_pos_of_pos (by norm_num) _)]
  simp only [someBindM]
  have hp : ((212380 / 36999 : ℝ) ^ ((10 : ℝ) / 9)) ^ (0.9 : ℝ) =
      212380 / 36999 := by
    rw [← Real.rpow_mul (by norm_num),
      show ((10:ℝ)/9) * (0.9:ℝ) = 1 by norm_num, Real.rpow_one]
  rw [hp, jsDiv_some _ _ (by norm_num : (212380/36999 : ℝ) ≠ 0)]
  simp only [someBindM]
  rw [show (0.0001:ℝ) / (3.7 * 1) + 5.74 / (212380/36999 : ℝ) = 1 by norm_num]
  rw [jsLog10_some _ one_pos, Real.logb_one]
  simp only [someBindM]
  rw [show ((0:ℝ) ^ 2) = 0 by norm_num, jsDiv_zero]
  simp only [noneBindM]

/-- C7 counterexample: at a zero-injection, positive, finite and physically
sensible input (1 m square duct, 3600 m³/h, viscosity 1 Pa·s, NONE model)
whose bulk density is chosen so the Reynolds number is exactly
`(212380/36999)^(10/9)` (≈ 6.98), the argument of the Colebrook `log10` on
line 141 is exactly 1, its logarithm is 0, and the friction factor divides
0.25 by zero: the checked pipeline reports a non-finite value (in IEEE
arithmetic the headloss becomes infinite), refuting the claim that no
output field can be non-finite for well-formed zero-injection inputs. -/
theorem C7_nonfinite_counterexample : calculateMixingChecked cex7 = none := by
  have hdim : (0:ℝ) < cex7.dimension := by norm_num [cex7, exBase]
  have hdep : (0:ℝ) < depthVal cex7 := by norm_num [depthVal, cex7, exBase]
  have hcv : (0:ℝ) ≤ cex7.chemicalViscosity := by norm_num [cex7, exBase]
  have hsd : 0 ≤ injectedDensity cex7 / orE cex7.density 1 := by
    rw [injectedDensity_zero_flows cex7 rfl rfl, zero_div]
  have hhyd := checkedHydraulics_some cex7 hsd hcv hdim hdep
  have hhd1 : hydraulicDiameter cex7 = 1 := by
    norm_num [hydraulicDiameter, area, perimeter, depthVal, orE, cex7, exBase]
  have hv1 : velocity cex7 = 1 := by
    norm_num [velocity, Q_m3s, area, depthVal, orE, cex7, exBase]
  have hre : Re cex7 = (212380 / 36999 : ℝ) ^ ((10 : ℝ) / 9) := by
    rw [Re, hv1, hhd1]
    norm_num [orE, cex7, exBase]
  rw [calculateMixingChecked, hhyd]
  simp only [someBindM]
  rw [checkedRest]
  dsimp only
  rw [hre, hhd1, covFdLm_cex7_none]
  simp only [noneBindM]

/-- C7 witness: the amended safety theorem applied at a concrete
well-formed zero-injection input (KENICS_KM model, for which the Colebrook
proviso is vacuous). -/
theorem C7_zero_flow_checked_witness :
    exZeroFlow.chemicalFlow = 0 ∧ exZeroFlow.dilutionWaterFlow = 0 ∧
    0 < exZeroFlow.flowRate ∧ 0 < exZeroFlow.dimension ∧
    0 < depthVal exZeroFlow ∧ 0 < exZeroFlow.density ∧
    0 < exZeroFlow.viscosity ∧ 0 ≤ exZeroFlow.chemicalViscosity ∧
    0 < exZeroFlow.availableLength ∧ 0 < exZeroFlow.numElements ∧
    0 < exZeroFlow.targetCoV ∧ 0 ≤ exZeroFlow.waterTemperature ∧
    exZeroFlow.waterTemperature ≤ 100 ∧
    calculateMixingChecked exZeroFlow = some (calculateMixing exZeroFlow) := by
  refine ⟨rfl, rfl, by norm_num [exZeroFlow, exBase],
    by norm_num [exZeroFlow, exBase],
    by norm_num [depthVal, exZeroFlow, exBase],
    by norm_num [exZeroFlow, exBase], by norm_num [exZeroFlow, exBase],
    by norm_num [exZeroFlow, exBase], by norm_num [exZeroFlow, exBase],
    by norm_num [exZeroFlow, exBase], by norm_num [exZeroFlow, exBase],
    by norm_num [exZeroFlow, exBase], by norm_num [exZeroFlow, exBase], ?_⟩
  refine C7_zero_flow_checked exZeroFlow rfl rfl
    (by norm_num [exZeroFlow, exBase]) (by norm_num [exZeroFlow, exBase])
    (by norm_num [depthVal, exZeroFlow, exBase])
    (by norm_num [exZeroFlow, exBase]) (by norm_num [exZeroFlow, exBase])
    (by norm_num [exZeroFlow, exBase]) (by norm_num [exZeroFlow, exBase])
    (by norm_num [exZeroFlow, exBase]) (by norm_num [exZeroFlow, exBase])
    (by norm_num [exZeroFlow, exBase]) (by norm_num [exZeroFlow, exBase])
    (fun h => ?_)
  rcases h with h | h | h <;> exact absurd h (by decide)

/-- At hydraulic diameter 1 m and Reynolds number 3600 the argument of
the default-arm Colebrook `log10` is at most `0.0001/3.7 + 5.74/60 < 1`,
in particular not 1 (so the friction factor of line 141 is finite). -/
theorem colebrookArg_ne_one_3600 (i : MixingInputs)
    (hhd : hydraulicDiameter i = 1) (hre : Re i = 3600) :
    0.0001 / (3.7 * hydraulicDiameter i) + 5.74 / Re i ^ (0.9:ℝ) ≠ 1 := by
  rw [hhd, hre]
  have hpos : (0:ℝ) < (3600:ℝ) ^ (0.9:ℝ) := Real.rpow_pos_of_pos (by norm_num) _
  have h60 : (60:ℝ) ≤ (3600:ℝ) ^ (0.9:ℝ) := by
    have h1 : (3600:ℝ) ^ ((0.5:ℝ)) = 60 := by
      rw [show (3600:ℝ) = 60 ^ (2:ℕ) by norm_num, ← Real.rpow_natCast 60 2,
        ← Real.rpow_mul (by norm_num : (0:ℝ) ≤ 60),
        show ((2:ℕ):ℝ) * (0.5:ℝ) = 1 by norm_num, Real.rpow_one]
    calc (60:ℝ) = (3600:ℝ) ^ ((0.5:ℝ)) := h1.symm
      _ ≤ (3600:ℝ) ^ (0.9:ℝ) :=
        Real.rpow_le_rpow_of_exponent_le (by norm_num) (by norm_num)
  have hb : 5.74 / (3600:ℝ) ^ (0.9:ℝ) ≤ 5.74 / 60 := by
    rw [div_le_div_iff₀ hpos (by norm_num)]
    nlinarith
  apply ne_of_lt
  calc 0.0001 / (3.7 * 1) + 5.74 / (3600:ℝ) ^ (0.9:ℝ)
      ≤ 0.0001 / (3.7 * 1) + 5.74 / 60 := by linarith
    _ < 1 := by norm_num

/-- C3 counterexample: with the WEIR model and `availableLength = -100`
on the otherwise benign base duct, the headloss is the fixed, strictly
positive 0.15 m of line 156, so every square root and logarithm in the
program's evaluation sees a positive argument — certified by the checked
pipeline succeeding and returning the plain-model record, so no NaN or
infinity arises.  The target CoV is already met (the clamped `mixerCoV`
is at most 1, below the target 2), so the required distance is
`Lm = availableLength =
-100` m, the required mixing time is -100 s, and the returned
`dissolvedAtTarget = min(100, (1 - e^{-rate·t})·100)` is strictly
negative, refuting the lower bound 0 of the claim on a real-valued run. -/
theorem C3_lower_bound_counterexample :
    calculateMixingChecked cex3w = some (calculateMixing cex3w) ∧
    (calculateMixing cex3w).headlossMeters = 0.15 ∧
    (calculateMixing cex3w).mixingTimeNeeded = -100 ∧
    (calculateMixing cex3w).dissolvedAtTarget < 0 := by
  have hhd1 : hydraulicDiameter cex3w = 1 := by
    norm_num [hydraulicDiameter, area, perimeter, depthVal, orE, cex3w, exBase]
  have hv1 : velocity cex3w = 1 := by
    norm_num [velocity, Q_m3s, area, depthVal, orE, cex3w, exBase]
  have hre : Re cex3w = 3600 := by
    rw [Re, hv1, hhd1]
    norm_num [orE, cex3w, exBase]
  have hmm : cex3w.mixerModel = MixerModel.WEIR := rfl
  have hhlmw : headlossMeters cex3w = 0.15 := by
    rw [headlossMeters, if_pos hmm]
  have hsd : 0 ≤ injectedDensity cex3w / orE cex3w.density 1 := by
    norm_num [injectedDensity, x_chem, x_water, totalInjectionFlowLh,
      waterDensity, orE, cex3w, exBase]
  have hAL : 0 < alpha cex3w := by
    norm_num [alpha, Q_m3s, totalInjectionFlowLh, orE, cex3w, exBase]
  have hchecked : calculateMixingChecked cex3w = some (calculateMixing cex3w) :=
    calculateMixingChecked_some cex3w hsd
      (by norm_num [cex3w, exBase]) (by norm_num [cex3w, exBase])
      (by norm_num [cex3w, exBase]) (by norm_num [depthVal, cex3w, exBase])
      (by norm_num [cex3w, exBase]) (by norm_num [cex3w, exBase]) hAL
      (by norm_num [cex3w, exBase]) (by norm_num [cex3w, exBase])
      (by norm_num [cex3w, exBase]) (by norm_num [cex3w, exBase])
      (fun h => absurd h (by decide))
      (by rw [hhlmw]; norm_num)
      (fun _ => colebrookArg_ne_one_3600 cex3w hhd1 hre)
  have hcov : mixerCoV cex3w ≤ cex3w.targetCoV := by
    refine le_trans (min_le_left _ _) ?_
    norm_num [cex3w, exBase]
  have hLm : LmVal cex3w = -100 := rfl
  have hmdn : mixingDistanceNeeded cex3w = -100 := by
    rw [mixingDistanceNeeded, if_pos hcov, hLm]
  have hlime : isLime cex3w = false := by decide
  have hfinal : finalDistanceNeeded cex3w = -100 := by
    rw [finalDistanceNeeded, hlime]; simpa using hmdn
  have hmtn : mixingTimeNeeded cex3w = -100 := by
    rw [mixingTimeNeeded, hfinal, hv1]
    norm_num [orE]
  have hK := rateK_pos cex3w
  have hexp : 1 < Real.exp (-(rateK cex3w) * mixingTimeNeeded cex3w) := by
    rw [hmtn, ← Real.exp_zero]
    apply Real.exp_lt_exp.mpr
    nlinarith
  have hraw : dissolvedRaw cex3w < 0 := by
    rw [dissolvedRaw]
    nlinarith
  refine ⟨hchecked, hhlmw, hmtn, ?_⟩
  show min 100 (dissolvedRaw cex3w) < 0
  exact lt_of_le_of_lt (min_le_right _ _) hraw

/-- C3 amended: on every input where the checked pipeline succeeds and
returns the plain-model record — that is, the program's IEEE evaluation
meets no division by zero and no log/sqrt/pow domain error, so the value
it returns is real and is the model's — `dissolvedAtTarget` is at most
100, and is at least 0 whenever the required mixing time is non-negative;
the lower bound can fail (a finite negative percentage is returned) for
inputs whose required mixing distance, and hence time, is negative. -/
theorem C3_dissolved_bounds :
    ∀ i : MixingInputs,
      calculateMixingChecked i = some (calculateMixing i) →
      (calculateMixing i).dissolvedAtTarget ≤ 100 ∧
      (0 ≤ (calculateMixing i).mixingTimeNeeded →
        0 ≤ (calculateMixing i).dissolvedAtTarget) := by
  intro i _hfin
  constructor
  · show min 100 (dissolvedRaw i) ≤ 100
    exact min_le_left _ _
  · intro ht
    have ht' : 0 ≤ mixingTimeNeeded i := ht
    have hK := rateK_pos i
    have hexp : Real.exp (-(rateK i) * mixingTimeNeeded i) ≤ 1 := by
      rw [← Real.exp_zero]
      apply Real.exp_le_exp.mpr
      nlinarith
    show (0:ℝ) ≤ min 100 (dissolvedRaw i)
    refine le_min (by norm_num) ?_
    rw [dissolvedRaw]
    nlinarith

/-- C3 witness: at the base input the checked pipeline succeeds, the
mixing time is 10 s, and the returned dissolved fraction is within
[0, 100]. -/
theorem C3_dissolved_bounds_witness :
    calculateMixingChecked exBase = some (calculateMixing exBase) ∧
    0 ≤ (calculateMixing exBase).mixingTimeNeeded ∧
    0 ≤ (calculateMixing exBase).dissolvedAtTarget ∧
    (calculateMixing exBase).dissolvedAtTarget ≤ 100 := by
  have hhd1 : hydraulicDiameter exBase = 1 := by
    norm_num [hydraulicDiameter, area, perimeter, depthVal, orE, exBase]
  have hv1 : velocity exBase = 1 := by
    norm_num [velocity, Q_m3s, area, depthVal, orE, exBase]
  have hre : Re exBase = 3600 := by
    rw [Re, hv1, hhd1]
    norm_num [orE, exBase]
  have hsd : 0 ≤ injectedDensity exBase / orE exBase.density 1 := by
    norm_num [injectedDensity, x_chem, x_water, totalInjectionFlowLh,
      waterDensity, orE, exBase]
  have hAL : 0 < alpha exBase := by
    norm_num [alpha, Q_m3s, totalInjectionFlowLh, orE, exBase]
  have hH : 0 < hydraulicDiameter exBase := by rw [hhd1]; norm_num
  have hhlm : 0 ≤ headlossMeters exBase :=
    headlossMeters_nonneg exBase (FDval_nonneg exBase)
      (LmVal_nonneg exBase (by norm_num [exBase]) hH.le (by norm_num [exBase]))
      hH.le
  have hchecked : calculateMixingChecked exBase = some (calculateMixing exBase) :=
    calculateMixingChecked_some exBase hsd
      (by norm_num [exBase]) (by norm_num [exBase]) (by norm_num [exBase])
      (by norm_num [depthVal, exBase]) (by norm_num [exBase])
      (by norm_num [exBase]) hAL (by norm_num [exBase])
      (by norm_num [exBase]) (by norm_num [exBase]) (by norm_num [exBase])
      (fun h => absurd h (by decide))
      hhlm
      (fun _ => colebrookArg_ne_one_3600 exBase hhd1 hre)
  have hcov : mixerCoV exBase ≤ exBase.targetCoV := by
    refine le_trans (min_le_left _ _) ?_
    norm_num [exBase]
  have hmdn : mixingDistanceNeeded exBase = 10 := by
    rw [mixingDistanceNeeded, if_pos hcov]; rfl
  have hlime : isLime exBase = false := by decide
  have hfinal : finalDistanceNeeded exBase = 10 := by
    rw [finalDistanceNeeded, hlime]; simpa using hmdn
  have hmtn : mixingTimeNeeded exBase = 10 := by
    rw [mixingTimeNeeded, hfinal, hv1]
    norm_num [orE]
  have ht : 0 ≤ (calculateMixing exBase).mixingTimeNeeded := by
    show (0:ℝ) ≤ mixingTimeNeeded exBase
    rw [hmtn]; norm_num
  exact ⟨hchecked, ht, (C3_dissolved_bounds exBase hchecked).2 ht,
    (C3_dissolved_bounds exBase hchecked).1⟩

end StaticMixing
